import Mathlib

/-!
Verification of RepoRelay core subsystems.

Shallow embedding of the repository-signal collection, tier classification,
alert synchronization, finding projection, EPSS update and auto-triage
subsystems, with theorems settling the frozen specification claims.

Conventions used throughout the embedding:
* Python dictionaries keyed by strings become association lists
  `List (String × _)` with a `get`-with-default lookup.
* Python `datetime` values become `Int` timestamps (seconds); `date()`
  becomes integer division by 86400.
* Python `None` becomes `Option.none`; Python truthiness of a string is
  non-emptiness, of a number non-zeroness.
* Code that may raise becomes `Except String _`.
-/

namespace TierClassifier

/-- A signal mapping, as produced by the detectors: `signals.get(name, False)`
defaults to `false` for a missing key. Embeds the Python dict of booleans. -/
abbrev Signals := List (String × Bool)

/-- Embeds `signals.get(s, False)`. -/
def sigGet (signals : Signals) (name : String) : Bool :=
  match signals with
  | [] => false
  | (k, v) :: rest => if k = name then v else sigGet rest name

/-- Repository tier: 1–4 or archived (Python uses the int 1..4 or the string
`'archived'`). -/
inductive Tier where
  | one
  | two
  | three
  | four
  | archived
deriving DecidableEq, Repr

/-- Embeds `TierClassifier.TIER_MAPPING`. -/
def tierMapping : Tier → String
  | .one => "very high"
  | .two => "high"
  | .three => "medium"
  | .four => "low"
  | .archived => "none"

/-- Result dictionary built by `TierClassifier.classify`. -/
structure Classification where
  tier : Tier
  business_criticality : String
  confidence_score : Nat
  reasons : List String
deriving DecidableEq, Repr

/-- Embeds `TierClassifier._is_tier_1`: returns the reason string appended when a
branch matches, `none` when no branch matches. -/
def isTier1 (signals : Signals) : Option String :=
  let has_containers := sigGet signals "has_dockerfile" || sigGet signals "has_kubernetes_config"
  let has_environments := sigGet signals "has_environments"
  let has_monitoring := sigGet signals "has_monitoring_config"
  let is_active := sigGet signals "recent_commits_30d"
  if has_containers && has_environments && has_monitoring && is_active then
    some "Containerized production system with monitoring and active maintenance"
  else
    let has_k8s := sigGet signals "has_kubernetes_config"
    let has_releases := sigGet signals "has_releases"
    let has_protection := sigGet signals "has_branch_protection"
    if has_k8s && has_releases && has_protection && has_monitoring then
      some "Kubernetes-based production system with release management"
    else
      none

/-- Embeds `TierClassifier._is_tier_2`. -/
def isTier2 (signals : Signals) : Option String :=
  let has_cicd := sigGet signals "has_ci_cd"
  let has_releases := sigGet signals "has_releases"
  let has_protection := sigGet signals "has_branch_protection"
  let multiple_contributors := sigGet signals "multiple_contributors"
  if has_cicd && has_releases && has_protection && multiple_contributors then
    some "Well-maintained codebase with release process and team collaboration"
  else
    let has_containers := sigGet signals "has_dockerfile" || sigGet signals "has_kubernetes_config"
    let has_monitoring := sigGet signals "has_monitoring_config"
    let is_active := sigGet signals "recent_commits_30d"
    if has_containers && (has_monitoring || has_cicd) && is_active then
      some "Containerized system with production indicators"
    else
      none

/-- Embeds `TierClassifier._is_tier_3`. -/
def isTier3 (signals : Signals) : Option String :=
  let has_tests := sigGet signals "has_tests"
  let is_active := sigGet signals "recent_commits_30d"
  let has_docs := sigGet signals "has_documentation"
  if has_tests && is_active && has_docs then
    some "Active development with testing and documentation"
  else
    let has_cicd := sigGet signals "has_ci_cd"
    if has_cicd && is_active then
      some "Active development with automated testing"
    else
      let multiple_contributors := sigGet signals "multiple_contributors"
      if is_active && multiple_contributors then
        some "Actively maintained by team"
      else
        none

/-- Signal-category name lists from `TierClassifier._calculate_confidence`. -/
def productionSignals : List String :=
  ["has_dockerfile", "has_kubernetes_config", "has_environments",
   "has_releases", "has_monitoring_config", "has_branch_protection"]

def developmentSignals : List String :=
  ["has_ci_cd", "has_tests", "recent_commits_30d", "active_prs_30d",
   "multiple_contributors", "consistent_commit_pattern"]

def securitySignals : List String :=
  ["has_security_scanning", "has_secret_scanning",
   "has_dependency_scanning", "has_sast_config"]

def organizationSignals : List String :=
  ["has_documentation", "has_api_specs", "has_codeowners", "has_security_md"]

/-- Embeds `TierClassifier._calculate_confidence` (the tier argument is 1..4). -/
def calculateConfidence (signals : Signals) (tier : Tier) : Nat :=
  let prod_count := productionSignals.countP (fun s => sigGet signals s)
  let dev_count := developmentSignals.countP (fun s => sigGet signals s)
  let sec_count := securitySignals.countP (fun s => sigGet signals s)
  let org_count := organizationSignals.countP (fun s => sigGet signals s)
  let score :=
    match tier with
    | .one => prod_count * 15 + dev_count * 5 + sec_count * 5 + org_count * 3
    | .two => prod_count * 10 + dev_count * 10 + sec_count * 5 + org_count * 3
    | .three => prod_count * 5 + dev_count * 12 + sec_count * 5 + org_count * 5
    | _ => prod_count * 3 + dev_count * 5 + sec_count * 3 + org_count * 10
  min score 100

/-- Embeds `TierClassifier.classify`.  The archival guard embeds Python
`if days_since_last_commit and days_since_last_commit > 180` (the first
conjunct is truthiness: non-`None` and non-zero). -/
def classify (signals : Signals) (days_since_last_commit : Option Int) : Classification :=
  let archived :=
    match days_since_last_commit with
    | none => false
    | some d => decide (d ≠ 0) && decide (d > 180)
  if archived then
    let d := days_since_last_commit.getD 0
    { tier := .archived
      business_criticality := tierMapping .archived
      confidence_score := 100
      reasons := [s!"No commits in {d} days"] }
  else
    match isTier1 signals with
    | some reason =>
        { tier := .one, business_criticality := tierMapping .one
          confidence_score := calculateConfidence signals .one, reasons := [reason] }
    | none =>
      match isTier2 signals with
      | some reason =>
          { tier := .two, business_criticality := tierMapping .two
            confidence_score := calculateConfidence signals .two, reasons := [reason] }
      | none =>
        match isTier3 signals with
        | some reason =>
            { tier := .three, business_criticality := tierMapping .three
              confidence_score := calculateConfidence signals .three, reasons := [reason] }
        | none =>
            { tier := .four, business_criticality := tierMapping .four
              confidence_score := calculateConfidence signals .four
              reasons := ["Does not meet criteria for higher tiers"] }

end TierClassifier

/-- ASCII lower-casing of one character; embeds Python `str.lower` on the
ASCII data this system handles. -/
def lowerChar (c : Char) : Char :=
  if 65 ≤ c.toNat ∧ c.toNat ≤ 90 then Char.ofNat (c.toNat + 32) else c

/-- ASCII lower-casing of a string (Python `str.lower`). -/
def lowerStr (s : String) : String :=
  ⟨s.data.map lowerChar⟩

/-- Lower-casing of a character list. -/
def lowerL (l : List Char) : List Char :=
  l.map lowerChar

/-- First-order list membership (Python `in` on a list). -/
def listMem {α : Type} [DecidableEq α] (x : α) : List α → Bool
  | [] => false
  | y :: rest => if y = x then true else listMem x rest

namespace PatternMatch

/-- Python `needle in hay` on strings: substring containment. -/
def containsSub (needle : List Char) : List Char → Bool
  | [] => needle.isEmpty
  | c :: rest => needle.isPrefixOf (c :: rest) || containsSub needle rest

/-- Split a pattern on `'*'` into its literal segments.  This embeds the
conversion `pattern.replace('.', '\\.').replace('*', '.*')` performed by
`_detect_pattern`/`_check_patterns`: every non-star character is literal
(the dot is escaped) and each `'*'` becomes a match-any gap. -/
def splitOnStar : List Char → List (List Char)
  | [] => [[]]
  | c :: rest =>
    if c = '*' then [] :: splitOnStar rest
    else
      match splitOnStar rest with
      | [] => [[c]]
      | seg :: segs => (c :: seg) :: segs

/-- Python `str.split(sep)` for a one-character separator. -/
def splitOnChar (sep : Char) : List Char → List (List Char)
  | [] => [[]]
  | c :: rest =>
    if c = sep then [] :: splitOnChar sep rest
    else
      match splitOnChar sep rest with
      | [] => [[c]]
      | seg :: segs => (c :: seg) :: segs

/-- Remainder of `s` after the first occurrence of `seg`, or `none` when
`seg` does not occur in `s`. -/
def dropAfterFirst (seg : List Char) : List Char → Option (List Char)
  | [] => if seg.isEmpty then some [] else none
  | c :: rest =>
    if seg.isPrefixOf (c :: rest) then some ((c :: rest).drop seg.length)
    else dropAfterFirst seg rest

/-- Left-to-right search for the literal segments of a star pattern; this is
the semantics of `re.search` on `seg₀.*seg₁.*…` (the code's converted glob). -/
def segSearch : List (List Char) → List Char → Bool
  | [], _ => true
  | seg :: rest, s =>
    match dropAfterFirst seg s with
    | none => false
    | some s' => segSearch rest s'

/-- Specification-side meaning of a star pattern: the segments occur in `s`
in order, separated by arbitrary runs of characters. -/
inductive SegsOccur : List (List Char) → List Char → Prop
  | nil (s : List Char) : SegsOccur [] s
  | cons (seg : List Char) (rest : List (List Char)) (pre suf : List Char) :
      SegsOccur rest suf → SegsOccur (seg :: rest) (pre ++ seg ++ suf)

/-- Specification-side substring containment. -/
def SubOf (needle hay : List Char) : Prop :=
  ∃ pre suf, hay = pre ++ needle ++ suf


end PatternMatch

namespace SignalDetector

/-- Embeds `SignalDetector.DOCKERFILE_PATTERNS`. -/
def DOCKERFILE_PATTERNS : List String :=
  ["Dockerfile", "Dockerfile.*", "docker/Dockerfile", ".docker/Dockerfile"]

/-- Embeds `SignalDetector.KUBERNETES_PATTERNS`. -/
def KUBERNETES_PATTERNS : List String :=
  ["kubernetes/", "k8s/", ".kube/", "helm/", "charts/",
   "deployment.yaml", "deployment.yml", "kustomization.yaml"]

/-- Embeds `SignalDetector.CI_CD_PATTERNS`. -/
def CI_CD_PATTERNS : List String :=
  [".github/workflows/", ".gitlab-ci.yml", "Jenkinsfile", ".travis.yml",
   ".circleci/", "azure-pipelines.yml", ".buildkite/", "bitbucket-pipelines.yml"]

/-- Embeds `SignalDetector.TERRAFORM_PATTERNS`. -/
def TERRAFORM_PATTERNS : List String :=
  ["*.tf", "terraform/", ".terraform/"]

/-- Embeds `SignalDetector.DEPLOYMENT_SCRIPT_PATTERNS`. -/
def DEPLOYMENT_SCRIPT_PATTERNS : List String :=
  ["deploy.sh", "scripts/deploy", "deployment/", "bin/deploy"]

/-- Embeds `SignalDetector.MONITORING_PATTERNS`. -/
def MONITORING_PATTERNS : List String :=
  ["datadog.yaml", "prometheus.yml", "grafana/", "newrelic.yml", ".dd/", "apm-config"]

/-- Embeds `SignalDetector.TEST_PATTERNS`. -/
def TEST_PATTERNS : List String :=
  ["test/", "tests/", "spec/", "__tests__/", "*.test.js", "*.spec.ts", "test_*.py"]

/-- Embeds `SignalDetector.DOCS_PATTERNS`. -/
def DOCS_PATTERNS : List String :=
  ["docs/", "documentation/", "README.md", "CONTRIBUTING.md"]

/-- Embeds `SignalDetector.API_SPEC_PATTERNS`. -/
def API_SPEC_PATTERNS : List String :=
  ["openapi.yaml", "openapi.json", "swagger.yaml", "swagger.json",
   "api-spec.yaml", "api/", ".spectral.yml"]

/-- Embeds `SignalDetector.SECURITY_PATTERNS`. -/
def SECURITY_PATTERNS : List String :=
  ["SECURITY.md", "security.txt", ".well-known/security.txt"]

/-- Embeds `SignalDetector.SECURITY_SCANNING_PATTERNS`. -/
def SECURITY_SCANNING_PATTERNS : List String :=
  [".github/workflows/security", ".github/workflows/codeql", "semgrep.yml",
   ".semgrep/", "sonar-project.properties"]

/-- Embeds `SignalDetector.GITLEAKS_PATTERNS`. -/
def GITLEAKS_PATTERNS : List String :=
  [".gitleaks.toml", "gitleaks.toml", ".gitleaks.yaml"]

/-- Embeds `SignalDetector.SAST_PATTERNS`. -/
def SAST_PATTERNS : List String :=
  [".semgrep.yml", "semgrep.yaml", ".bandit", "sonar-project.properties", ".codeql/"]

/-- Embeds `SignalDetector.DATABASE_MIGRATION_PATTERNS`. -/
def DATABASE_MIGRATION_PATTERNS : List String :=
  ["migrations/", "db/migrations/", "alembic/", "flyway/", "liquibase/"]

/-- Embeds `SignalDetector.SSL_PATTERNS`. -/
def SSL_PATTERNS : List String :=
  ["ssl/", "certs/", "tls.conf", "nginx.conf"]

/-- Embeds `SignalDetector._detect_pattern` over the cached file tree. Wildcard
patterns use a case-SENSITIVE regex search, directory patterns a
case-sensitive prefix check, and other patterns exact list membership
(`pattern in self.file_tree_cache`). An empty (or failed) file-tree cache
short-circuits to `False`. -/
def detectPattern (fileTree : List String) (patterns : List String) : Bool :=
  if fileTree.isEmpty then false
  else
    patterns.any fun pattern =>
      if pattern.data.contains '*' then
        fileTree.any fun path => PatternMatch.segSearch (PatternMatch.splitOnStar pattern.data) path.data
      else if pattern.data.getLast? = some '/' then
        fileTree.any fun path => pattern.data.isPrefixOf path.data
      else
        fileTree.contains pattern

/-- Embeds `SignalDetector._detect_file_exact`. -/
def detectFileExact (fileTree : List String) (filename : String) : Bool :=
  fileTree.contains filename

end SignalDetector

namespace Collector

/-- Embeds `GitHubRepositoryCollector._check_patterns`: same branch structure as
`_detect_pattern`, but the wildcard regex is compiled with `re.IGNORECASE`
(modelled by lower-casing both sides), the directory check compares
lower-cased prefix, and the file check is lower-cased SUBSTRING containment
(`pattern.lower() in path.lower()`). -/
def checkPatterns (file_paths : List String) (patterns : List String) : Bool :=
  patterns.any fun pattern =>
    if pattern.data.contains '*' then
      file_paths.any fun path =>
        PatternMatch.segSearch ((PatternMatch.splitOnStar pattern.data).map lowerL)
          (lowerL path.data)
    else if pattern.data.getLast? = some '/' then
      file_paths.any fun path => (lowerL pattern.data).isPrefixOf (lowerL path.data)
    else
      file_paths.any fun path => PatternMatch.containsSub (lowerL pattern.data) (lowerL path.data)

end Collector

namespace PatternMatch

/-- The claim's per-pattern match relation (case-insensitive): a wildcard
pattern's `*` matches any run of characters, a directory pattern matches by
prefix, a file pattern by substring. -/
def SpecMatchCI (pattern path : String) : Prop :=
  if pattern.data.contains '*' then
    SegsOccur ((splitOnStar pattern.data).map lowerL) (lowerL path.data)
  else if pattern.data.getLast? = some '/' then
    lowerL pattern.data <+: lowerL path.data
  else
    SubOf (lowerL pattern.data) (lowerL path.data)

/-- The relation `_detect_pattern` actually implements: case-sensitive, with
exact path equality (not substring) for non-wildcard file patterns. -/
def SpecMatchCS (pattern path : String) : Prop :=
  if pattern.data.contains '*' then
    SegsOccur (splitOnStar pattern.data) path.data
  else if pattern.data.getLast? = some '/' then
    pattern.data <+: path.data
  else
    path = pattern

end PatternMatch


namespace SignalDetector

/-- Embeds `SignalDetector.PACKAGE_PATTERNS`. -/
def PACKAGE_PATTERNS : List (String × List String) :=
  [("node", ["package.json"]),
   ("python", ["requirements.txt", "setup.py", "pyproject.toml"]),
   ("go", ["go.mod"]),
   ("java", ["pom.xml", "build.gradle"]),
   ("ruby", ["Gemfile"]),
   ("rust", ["Cargo.toml"]),
   ("php", ["composer.json"])]

/-- Python `path.endswith(suffix)`. -/
def endsWithStr (s suffix : String) : Bool :=
  suffix.data.isSuffixOf s.data

/-- Embeds `path.rsplit('/', 1)[0]`: everything before the last `'/'` (callers
only apply this to paths containing `'/'`). -/
def dirOf (s : String) : String :=
  ⟨((s.data.reverse.dropWhile (fun c => c ≠ '/')).drop 1).reverse⟩

/-- Embeds `SignalDetector._detect_monorepo`: at least two package-manifest files
(for some manifest name occurring more than once) located in at least two
distinct directories. -/
def detectMonorepo (fileTree : List String) : Bool :=
  let package_files_found :=
    PACKAGE_PATTERNS.flatMap fun lf =>
      lf.2.flatMap fun package_file =>
        let matched := fileTree.filter fun path => endsWithStr path package_file
        if matched.length > 1 then matched else []
  if package_files_found.length ≥ 2 then
    let directories :=
      ((package_files_found.filter fun p => p.data.contains '/').map dirOf).dedup
    decide (directories.length ≥ 2)
  else
    false

/-- Embeds `SignalDetector._detect_documentation`: docs directory (the DOCS
patterns without the two README entries) or a README longer than 500
characters; a failed README fetch (`none`) degrades to the directory
check. -/
def detectDocumentation (fileTree : List String) (readmeLength : Option Nat) : Bool :=
  let has_docs_dir := detectPattern fileTree ["docs/", "documentation/"]
  match readmeLength with
  | some n => has_docs_dir || decide (n > 500)
  | none => has_docs_dir

/-- Embeds `SignalDetector._detect_dependency_scanning`. -/
def detectDependencyScanning (fileTree : List String) : Bool :=
  (detectFileExact fileTree ".github/dependabot.yml" ||
   detectFileExact fileTree ".github/dependabot.yaml") ||
  (detectFileExact fileTree "renovate.json" ||
   detectFileExact fileTree ".renovaterc")

/-- Inputs of `SignalDetector.detect_all_signals` that come from GitHub API
connections rather than the file tree; each `_detect_*` helper degrades to
`False` on any API failure, so each is modelled as the boolean it
returns. -/
structure ApiInputs where
  hasEnvironments : Bool
  hasReleases : Bool
  hasBranchProtection : Bool
  recentCommits30 : Bool
  activePrs30 : Bool
  multipleContributors : Bool
  dependabotActivity : Bool
  recentReleases90 : Bool
  consistentCommitPattern : Bool
  readmeLength : Option Nat
  secretScanningEnabled : Bool

/-- Embeds `SignalDetector.detect_all_signals`: the full ordered signal mapping of
the REST path. -/
def detectAllSignals (fileTree : List String) (api : ApiInputs) : List (String × Bool) :=
  [("has_dockerfile", detectPattern fileTree DOCKERFILE_PATTERNS),
   ("has_kubernetes_config", detectPattern fileTree KUBERNETES_PATTERNS),
   ("has_ci_cd", detectPattern fileTree CI_CD_PATTERNS),
   ("has_terraform", detectPattern fileTree TERRAFORM_PATTERNS),
   ("has_deployment_scripts", detectPattern fileTree DEPLOYMENT_SCRIPT_PATTERNS),
   ("has_procfile", detectFileExact fileTree "Procfile"),
   ("has_environments", api.hasEnvironments),
   ("has_releases", api.hasReleases),
   ("has_branch_protection", api.hasBranchProtection),
   ("has_monitoring_config", detectPattern fileTree MONITORING_PATTERNS),
   ("has_ssl_config", detectPattern fileTree SSL_PATTERNS),
   ("has_database_migrations", detectPattern fileTree DATABASE_MIGRATION_PATTERNS),
   ("recent_commits_30d", api.recentCommits30),
   ("active_prs_30d", api.activePrs30),
   ("multiple_contributors", api.multipleContributors),
   ("has_dependabot_activity", api.dependabotActivity),
   ("recent_releases_90d", api.recentReleases90),
   ("consistent_commit_pattern", api.consistentCommitPattern),
   ("has_tests", detectPattern fileTree TEST_PATTERNS),
   ("has_documentation", detectDocumentation fileTree api.readmeLength),
   ("has_api_specs", detectPattern fileTree API_SPEC_PATTERNS),
   ("has_codeowners", detectFileExact fileTree "CODEOWNERS" ||
      detectFileExact fileTree ".github/CODEOWNERS"),
   ("has_security_md", detectPattern fileTree SECURITY_PATTERNS),
   ("is_monorepo", detectMonorepo fileTree),
   ("has_security_scanning", detectPattern fileTree SECURITY_SCANNING_PATTERNS),
   ("has_secret_scanning", api.secretScanningEnabled),
   ("has_dependency_scanning", detectDependencyScanning fileTree),
   ("has_gitleaks_config", detectPattern fileTree GITLEAKS_PATTERNS),
   ("has_sast_config", detectPattern fileTree SAST_PATTERNS)]

end SignalDetector

namespace Collector

/-- Parsed GraphQL repository data, as read by
`GitHubRepositoryCollector._detect_signals_from_graphql` (timestamps are
`Int` seconds, absent values `none`). -/
structure GraphqlRepoData where
  fileTree : List String
  environmentsTotal : Nat
  releasesTotal : Nat
  releasesRecent : List (Option Int)
  branchProtectionTotal : Nat
  pullRequestsRecent : List (Option Int × String)
  vulnerabilityAlertsTotal : Nat
  commitsLastCommitDate : Option Int
  commitsContributorCount : Nat
  readme : Option String
  codeownersContent : String

/-- Embeds `GitHubRepositoryCollector._has_recent_release`. -/
def hasRecentRelease (now : Int) (days : Int) (releases : List (Option Int)) : Bool :=
  releases.any fun createdAt =>
    match createdAt with
    | some t => decide (t ≥ now - days * 86400)
    | none => false

/-- Embeds `GitHubRepositoryCollector._has_recent_commits`. -/
def hasRecentCommits (now : Int) (days : Int) (lastCommitDate : Option Int) : Bool :=
  match lastCommitDate with
  | some t => decide (t ≥ now - days * 86400)
  | none => false

/-- Embeds `GitHubRepositoryCollector._has_active_prs`. -/
def hasActivePrs (now : Int) (days : Int) (prs : List (Option Int × String)) : Bool :=
  prs.any fun pr =>
    match pr.1 with
    | some t => decide (t ≥ now - days * 86400)
    | none => false

/-- Embeds `GitHubRepositoryCollector._has_dependabot_prs`. -/
def hasDependabotPrs (prs : List (Option Int × String)) : Bool :=
  prs.any fun pr =>
    (pr.2 != "") && PatternMatch.containsSub "dependabot".data (lowerL pr.2.data)

/-- Embeds `GitHubRepositoryCollector._detect_signals_from_graphql`: the full
ordered signal mapping of the GraphQL bulk path. -/
def detectSignalsFromGraphql (now : Int) (d : GraphqlRepoData) : List (String × Bool) :=
  [("has_dockerfile", checkPatterns d.fileTree SignalDetector.DOCKERFILE_PATTERNS),
   ("has_kubernetes_config", checkPatterns d.fileTree SignalDetector.KUBERNETES_PATTERNS),
   ("has_ci_cd", checkPatterns d.fileTree SignalDetector.CI_CD_PATTERNS),
   ("has_terraform", checkPatterns d.fileTree SignalDetector.TERRAFORM_PATTERNS),
   ("has_deployment_scripts", checkPatterns d.fileTree SignalDetector.DEPLOYMENT_SCRIPT_PATTERNS),
   ("has_environments", decide (d.environmentsTotal > 0)),
   ("has_monitoring", checkPatterns d.fileTree SignalDetector.MONITORING_PATTERNS),
   ("has_releases", decide (d.releasesTotal > 0)),
   ("recent_release_90d", hasRecentRelease now 90 d.releasesRecent),
   ("has_branch_protection", decide (d.branchProtectionTotal > 0)),
   ("has_codeowners", d.codeownersContent != ""),
   ("recent_commits_30d", hasRecentCommits now 30 d.commitsLastCommitDate),
   ("recent_commits_90d", hasRecentCommits now 90 d.commitsLastCommitDate),
   ("active_contributors", decide (d.commitsContributorCount ≥ 2)),
   ("active_prs_30d", hasActivePrs now 30 d.pullRequestsRecent),
   ("has_dependabot", hasDependabotPrs d.pullRequestsRecent),
   ("has_tests", checkPatterns d.fileTree SignalDetector.TEST_PATTERNS),
   ("has_documentation", checkPatterns d.fileTree SignalDetector.DOCS_PATTERNS),
   ("has_readme", match d.readme with | some r => r != "" | none => false),
   ("readme_length_500", match d.readme with
      | some r => if r != "" then decide (r.length ≥ 500) else false
      | none => false),
   ("has_api_spec", checkPatterns d.fileTree SignalDetector.API_SPEC_PATTERNS),
   ("has_changelog", checkPatterns d.fileTree ["CHANGELOG", "CHANGELOG.md", "HISTORY.md"]),
   ("has_security_policy", checkPatterns d.fileTree ["SECURITY.md", ".github/SECURITY.md"]),
   ("has_secret_scanning", decide (d.vulnerabilityAlertsTotal > 0)),
   ("has_sbom", checkPatterns d.fileTree [".sbom", "sbom.json", "sbom.xml", "bom.json"]),
   ("has_security_txt", checkPatterns d.fileTree ["security.txt", ".well-known/security.txt"]),
   ("has_code_scanning", checkPatterns d.fileTree [".github/workflows/codeql", "codeql"]),
   ("has_package_manager", checkPatterns d.fileTree
      ["package.json", "requirements.txt", "Gemfile", "pom.xml",
       "build.gradle", "Cargo.toml", "go.mod"]),
   ("has_license", checkPatterns d.fileTree ["LICENSE", "LICENSE.md", "LICENSE.txt", "COPYING"]),
   ("has_contributing_guide", checkPatterns d.fileTree
      ["CONTRIBUTING.md", ".github/CONTRIBUTING.md"]),
   ("has_code_of_conduct", checkPatterns d.fileTree
      ["CODE_OF_CONDUCT.md", ".github/CODE_OF_CONDUCT.md"]),
   ("has_issue_templates", checkPatterns d.fileTree
      [".github/ISSUE_TEMPLATE/", ".github/issue_template.md"]),
   ("has_pr_template", checkPatterns d.fileTree
      [".github/pull_request_template.md", ".github/PULL_REQUEST_TEMPLATE"]),
   ("has_gitignore", checkPatterns d.fileTree [".gitignore"])]

end Collector

namespace FindingsConverter

/-- Embeds `GitHubFindingsConverter.SEVERITY_MAP.get(severity, 'Info')`, written as
the dict's if-chain. -/
def severityMapGet (severity : String) : String :=
  if severity = "critical" then "Critical"
  else if severity = "high" then "High"
  else if severity = "moderate" then "Medium"
  else if severity = "medium" then "Medium"
  else if severity = "low" then "Low"
  else if severity = "warning" then "Low"
  else if severity = "error" then "High"
  else if severity = "note" then "Info"
  else if severity = "info" then "Info"
  else "Info"

/-- Embeds `GitHubFindingsConverter._map_severity`: lower-case (empty string is
falsy, giving `'info'`), then look up with default `'Info'`. -/
def mapSeverity (github_severity : String) : String :=
  let severity := if github_severity = "" then "info" else lowerStr github_severity
  severityMapGet severity

end FindingsConverter

namespace RestClient

/-- Embeds `GitHubRestClient._map_codeql_severity`: `None`/empty default to
`"medium"`, the dict lookup defaults to `"medium"`. -/
def mapCodeqlSeverity (security_severity_level : Option String) : String :=
  match security_severity_level with
  | none => "medium"
  | some s =>
    if s = "" then "medium"
    else
      let level := lowerStr s
      if level = "critical" then "critical"
      else if level = "high" then "high"
      else if level = "medium" then "medium"
      else if level = "low" then "low"
      else if level = "warning" then "low"
      else if level = "note" then "info"
      else if level = "error" then "medium"
      else "medium"

end RestClient

namespace FindingsConverter

/-- Python whitespace test used by `str.strip()` / `int()`. -/
def isPySpace (c : Char) : Bool :=
  c = ' ' || c = '\t' || c = '\n' || c = '\r' || c.toNat = 11 || c.toNat = 12

/-- Python `str.strip()`. -/
def stripChars (l : List Char) : List Char :=
  ((l.dropWhile isPySpace).reverse.dropWhile isPySpace).reverse

/-- Python `s.replace(pat, '')`: remove all (non-overlapping, left-to-right)
occurrences of `pat`. -/
def removeAllSub (pat : List Char) (s : List Char) : List Char :=
  match s with
  | [] => []
  | c :: rest =>
    if pat.length > 0 ∧ pat.isPrefixOf (c :: rest) then
      removeAllSub pat ((c :: rest).drop pat.length)
    else
      c :: removeAllSub pat rest
termination_by s.length
decreasing_by
  · simp only [List.length_drop, List.length_cons]
    omega
  · simp

/-- Python `int(str)` on the decimal strings this code feeds it: optional
sign, non-empty digit run, surrounding whitespace stripped. -/
def parsePyInt (l : List Char) : Option Int :=
  let l := stripChars l
  match l with
  | [] => none
  | c :: rest =>
    let signAndDigits : Bool × List Char :=
      if c = '-' then (true, rest)
      else if c = '+' then (false, rest) else (false, c :: rest)
    let digits := signAndDigits.2
    if digits ≠ [] ∧ digits.all (fun d => d.isDigit) then
      let n := digits.foldl (fun acc d => acc * 10 + (d.toNat - 48)) (0 : Nat)
      some (if signAndDigits.1 then -(n : Int) else (n : Int))
    else
      none

/-- CWE parsing in `_convert_codeql_alert`:
`int(alert.cwe.replace('CWE-', '').split(',')[0].strip())`, degraded to
`none` when unparseable. -/
def parseCwe (cwe : String) : Option Int :=
  parsePyInt (stripChars ((removeAllSub "CWE-".data cwe.data).takeWhile (fun c => c ≠ ',')))

/-- Python truthiness of a nullable integer field (`if alert.start_line:`). -/
def optIntTruthy (o : Option Int) : Bool :=
  match o with
  | some n => n != 0
  | none => false

/-- Embeds `.date()` of an `Int`-seconds timestamp: the day number. -/
def dateOf (t : Int) : Int :=
  Int.fdiv t 86400

/-- A `GitHubAlert` mirror row together with the repository attributes the
converter reads through it.  String fields hold `''` when absent (the
mirror's `_build_alert_fields` defaults); nullable fields are `Option`. -/
structure GHAlert where
  alert_type : String
  github_alert_id : String
  state : String
  severity : String
  title : String
  description : String
  html_url : String
  cve : String
  cwe : String
  rule_id : String
  file_path : String
  secret_type : String
  package_name : String
  package_ecosystem : String
  vulnerable_version : String
  patched_version : String
  start_line : Option Int
  end_line : Option Int
  created_at : Option Int
  fixed_at : Option Int
  repo_name : String
  repo_github_repo_id : String
  repo_product : Option String
deriving DecidableEq, Repr

/-- The Finding fields this converter writes.  A fresh `Finding()` carries
the persistence layer's defaults; their exact values never reach a
projected field, so neutral defaults stand in for them.  `test` is the
identity (engagement name, test type name) of the owning Test; `reporter`
is the system user. -/
structure Finding where
  title : String := ""
  description : String := ""
  severity : String := ""
  cve : Option String := none
  cwe : Option Int := none
  mitigation : Option String := none
  component_name : String := ""
  component_version : String := ""
  references : String := ""
  unique_id_from_tool : String := ""
  vuln_id_from_tool : String := ""
  file_path : String := ""
  line : Option Int := none
  test : String × String := ("", "")
  reporter : String := ""
  date : Int := 0
  active : Bool := true
  verified : Bool := false
  is_mitigated : Bool := false
  mitigated : Option Int := none
  mitigated_by : Option String := none
  risk_accepted : Bool := false
  false_p : Bool := false
  out_of_scope : Bool := false
deriving DecidableEq, Repr

/-- Embeds `GitHubFindingsConverter._build_unique_id`:
`github-{alert_type}-{repo_id}-{alert_number}`. -/
def buildUniqueId (a : GHAlert) : String :=
  "github-" ++ a.alert_type ++ "-" ++ a.repo_github_repo_id ++ "-" ++ a.github_alert_id

/-- Embeds `GitHubFindingsConverter._convert_dependabot_alert`, applied to a
finding by name like the `setattr` loop in `create_or_update_finding`. -/
def convertDependabotAlert (a : GHAlert) (test : String × String) (now : Int)
    (f : Finding) : Finding :=
  let package_info :=
    (if a.package_name != "" then a.package_name else "Unknown package") ++
    (if a.package_ecosystem != "" then " (" ++ a.package_ecosystem ++ ")" else "")
  let title := package_info ++ ": " ++ a.title
  let description_parts :=
    (if a.description != "" then [a.description] else []) ++
    (if a.package_name != "" then ["\n**Package:** " ++ a.package_name] else []) ++
    (if a.package_ecosystem != "" then ["**Ecosystem:** " ++ a.package_ecosystem] else []) ++
    (if a.vulnerable_version != "" then
       ["**Vulnerable Version:** " ++ a.vulnerable_version] else []) ++
    (if a.patched_version != "" then
       ["**Patched Version:** " ++ a.patched_version] else []) ++
    ["\n**GitHub Alert:** " ++ a.html_url]
  { f with
    title := title.take 511
    description := String.intercalate "\n" description_parts
    severity := mapSeverity a.severity
    cve := if a.cve != "" then some a.cve else none
    mitigation :=
      if a.patched_version != "" then
        some ("Upgrade " ++ a.package_name ++ " to version " ++
              a.patched_version ++ " or later.")
      else none
    component_name := a.package_name
    component_version := a.vulnerable_version
    references := a.html_url
    unique_id_from_tool := buildUniqueId a
    vuln_id_from_tool := a.github_alert_id
    test := test
    reporter := "system"
    date := match a.created_at with
      | some t => dateOf t
      | none => dateOf now }

/-- Embeds `GitHubFindingsConverter._convert_codeql_alert`. -/
def convertCodeqlAlert (a : GHAlert) (test : String × String) (now : Int)
    (f : Finding) : Finding :=
  let location :=
    a.file_path ++
    (if optIntTruthy a.start_line then
       ":" ++ toString (a.start_line.getD 0) ++
       (if optIntTruthy a.end_line && a.end_line != a.start_line then
          "-" ++ toString (a.end_line.getD 0)
        else "")
     else "")
  let description_parts :=
    (if a.description != "" then [a.description] else []) ++
    (if a.file_path != "" then ["\n**Location:** " ++ location] else []) ++
    (if a.rule_id != "" then ["**Rule:** " ++ a.rule_id] else []) ++
    ["\n**GitHub Alert:** " ++ a.html_url]
  { f with
    title := a.title.take 511
    description := String.intercalate "\n" description_parts
    severity := mapSeverity a.severity
    cwe := if a.cwe != "" then parseCwe a.cwe else none
    file_path := a.file_path
    line := a.start_line
    references := a.html_url
    unique_id_from_tool := buildUniqueId a
    vuln_id_from_tool := if a.rule_id != "" then a.rule_id else a.github_alert_id
    test := test
    reporter := "system"
    date := match a.created_at with
      | some t => dateOf t
      | none => dateOf now }

/-- Embeds `GitHubFindingsConverter._convert_secret_scanning_alert` (severity is
always Critical for secrets). -/
def convertSecretScanningAlert (a : GHAlert) (test : String × String) (now : Int)
    (f : Finding) : Finding :=
  let secret_type := if a.secret_type != "" then a.secret_type else "Exposed Secret"
  let title := secret_type ++ ": " ++ a.title
  let location :=
    a.file_path ++
    (if optIntTruthy a.start_line then ":" ++ toString (a.start_line.getD 0) else "")
  let description_parts :=
    (if a.description != "" then [a.description] else []) ++
    (if a.secret_type != "" then ["\n**Secret Type:** " ++ a.secret_type] else []) ++
    (if a.file_path != "" then ["**Location:** " ++ location] else []) ++
    ["\n**GitHub Alert:** " ++ a.html_url]
  { f with
    title := title.take 511
    description := String.intercalate "\n" description_parts
    severity := "Critical"
    file_path := a.file_path
    line := a.start_line
    references := a.html_url
    unique_id_from_tool := buildUniqueId a
    vuln_id_from_tool := a.github_alert_id
    test := test
    reporter := "system"
    date := match a.created_at with
      | some t => dateOf t
      | none => dateOf now }

/-- Embeds `GitHubFindingsConverter.convert_alert_to_finding_fields` combined with
the `setattr` application loop of `create_or_update_finding`. -/
def convertAlertToFindingFields (a : GHAlert) (test : String × String) (now : Int)
    (f : Finding) : Except String Finding :=
  if a.alert_type = "dependabot" then .ok (convertDependabotAlert a test now f)
  else if a.alert_type = "codeql" then .ok (convertCodeqlAlert a test now f)
  else if a.alert_type = "secret_scanning" then .ok (convertSecretScanningAlert a test now f)
  else .error ("Unknown alert type: " ++ a.alert_type)

/-- Embeds `GitHubFindingsConverter._apply_state_to_finding`: the `fixed` branch
uses `alert.fixed_at or timezone.now()` for the mitigated timestamp. -/
def applyStateToFinding (f : Finding) (a : GHAlert) (now : Int) : Finding :=
  if a.state = "open" then
    { f with active := true, verified := false, is_mitigated := false,
             mitigated := none, mitigated_by := none, risk_accepted := false,
             false_p := false, out_of_scope := false }
  else if a.state = "fixed" then
    { f with active := false, is_mitigated := true,
             mitigated := some (match a.fixed_at with | some t => t | none => now),
             mitigated_by := some "system" }
  else if a.state = "dismissed" then
    { f with active := false, risk_accepted := true }
  else
    f

/-- Embeds `GitHubFindingsConverter._get_or_create_test`'s name table. -/
def testTypeMap (alert_type : String) : Option String :=
  if alert_type = "dependabot" then some "GitHub Dependabot"
  else if alert_type = "codeql" then some "GitHub CodeQL"
  else if alert_type = "secret_scanning" then some "GitHub Secret Scanning"
  else none

/-- Key identifying a finding row: the Test's identity (product, engagement
name, test type name) plus `unique_id_from_tool`, as in
`Finding.objects.get(test=test, unique_id_from_tool=unique_id)`. -/
abbrev FindingKey := String × String × String × String

/-- Persistent state touched by the projector: engagements and tests keyed
by their get-or-create identities, the set of existing `Test_Type` names,
and the finding store. -/
structure World where
  engagements : List (String × String) := []
  tests : List (String × String × String) := []
  testTypes : List String := []
  findings : List (FindingKey × Finding) := []
deriving DecidableEq, Repr

/-- First-match association lookup in the finding store. -/
def findingLookup (l : List (FindingKey × Finding)) (k : FindingKey) : Option Finding :=
  match l with
  | [] => none
  | (k', f) :: rest => if k' = k then some f else findingLookup rest k

/-- Saving a finding: overwrite the stored row, or append a new one. -/
def storePut (l : List (FindingKey × Finding)) (k : FindingKey) (f : Finding) :
    List (FindingKey × Finding) :=
  if (findingLookup l k).isSome then
    l.map fun kv => if kv.1 = k then (k, f) else kv
  else
    l ++ [(k, f)]

/-- Embeds `GitHubFindingsConverter.create_or_update_finding`: resolve or create
engagement and test, look up the finding by its dedup key (`created` is
true when absent), apply the converted fields and the state projection,
and persist.  (The final `alert.finding = finding` back-link touches only
the alert row and is outside the finding store modelled here.) -/
def createOrUpdateFinding (w : World) (a : GHAlert) (now : Int) :
    Except String (Finding × Bool × World) :=
  match a.repo_product with
  | none => .error ("Repository " ++ a.repo_name ++ " has no product")
  | some product =>
    let engagement_name := "GitHub Security Alerts - " ++ a.repo_name
    let engagements' :=
      if listMem (product, engagement_name) w.engagements then w.engagements
      else w.engagements ++ [(product, engagement_name)]
    match testTypeMap a.alert_type with
    | none => .error ("Unknown alert type: " ++ a.alert_type)
    | some test_type_name =>
      if listMem test_type_name w.testTypes then
        let testKey : String × String × String := (product, engagement_name, test_type_name)
        let tests' := if listMem testKey w.tests then w.tests else w.tests ++ [testKey]
        let unique_id := buildUniqueId a
        let fkey : FindingKey := (product, engagement_name, test_type_name, unique_id)
        let start : Finding × Bool :=
          match findingLookup w.findings fkey with
          | some f => (f, false)
          | none => ({}, true)
        match convertAlertToFindingFields a (engagement_name, test_type_name) now start.1 with
        | .error e => .error e
        | .ok f1 =>
          let f2 := applyStateToFinding f1 a now
          .ok (f2, start.2,
               { w with engagements := engagements', tests := tests',
                        findings := storePut w.findings fkey f2 })
      else
        .error ("Test_Type not found: " ++ test_type_name)

end FindingsConverter

namespace AlertsCollector

/-- Embeds `GitHubAlertSync` cursor row (one per repository). -/
structure SyncTracker where
  dependabot_last_sync : Option Int := none
  codeql_last_sync : Option Int := none
  secret_scanning_last_sync : Option Int := none
  dependabot_alerts_fetched : Nat := 0
  codeql_alerts_fetched : Nat := 0
  secret_scanning_alerts_fetched : Nat := 0
  full_sync_completed : Bool := false
  last_sync_error : String := ""
  last_sync_error_at : Option Int := none
deriving DecidableEq, Repr

/-- The repository fields `sync_repository_alerts` reads and writes. -/
structure RepoRec where
  name : String
  github_url : String
  dependabot_alert_count : Nat := 0
  codeql_alert_count : Nat := 0
  secret_scanning_alert_count : Nat := 0
  last_alert_sync : Option Int := none
deriving DecidableEq, Repr

/-- Embeds `SyncResult` dataclass. -/
structure SyncResult where
  repository_name : String
  dependabot_count : Nat := 0
  codeql_count : Nat := 0
  secret_scanning_count : Nat := 0
  errors : List String := []
  success : Bool := true
deriving DecidableEq, Repr

/-- Embeds `RateLimitStatus` dataclass. -/
structure RateLimitStatus where
  graphql_remaining : Nat
  graphql_limit : Nat
  rest_remaining : Nat
  rest_limit : Nat
deriving DecidableEq, Repr

/-- Embeds `RateLimitStatus.graphql_percent_used`. -/
def RateLimitStatus.graphql_percent_used (s : RateLimitStatus) : ℚ :=
  if s.graphql_limit > 0 then (1 - (s.graphql_remaining : ℚ) / s.graphql_limit) * 100 else 0

/-- Embeds `RateLimitStatus.rest_percent_used`. -/
def RateLimitStatus.rest_percent_used (s : RateLimitStatus) : ℚ :=
  if s.rest_limit > 0 then (1 - (s.rest_remaining : ℚ) / s.rest_limit) * 100 else 0

/-- Embeds `RateLimitStatus.should_pause`: more than 80% used on either transport,
i.e. remaining quota below 20%. -/
def RateLimitStatus.should_pause (s : RateLimitStatus) : Bool :=
  decide (s.graphql_percent_used > 80) || decide (s.rest_percent_used > 80)

/-- Embeds `GitHubAlertsCollector._should_pause_for_rate_limits`: the placeholder
always returns `False` and consults no rate-limit state at all. -/
def shouldPauseForRateLimits : Bool :=
  false

/-- Python `str.rstrip('/')`. -/
def rstripSlash (s : String) : String :=
  ⟨(s.data.reverse.dropWhile (fun c => c = '/')).reverse⟩

/-- Embeds `GitHubAlertsCollector._parse_repository_identifier`. -/
def parseRepositoryIdentifier (repo : RepoRec) : Option (String × String) :=
  let fromUrl : Option (String × String) :=
    if repo.github_url != "" then
      let parts : List String :=
        (PatternMatch.splitOnChar '/' (rstripSlash repo.github_url).data).map
          (fun l => (⟨l⟩ : String))
      if parts.length ≥ 2 then
        match parts.reverse with
        | last :: secondLast :: _ => some (secondLast, last)
        | _ => none
      else none
    else none
  match fromUrl with
  | some r => some r
  | none =>
    if repo.name.data.contains '/' then
      match (PatternMatch.splitOnChar '/' repo.name.data).map (fun l => (⟨l⟩ : String)) with
      | [o, n] => some (o, n)
      | _ => none
    else none

/-- Embeds `GitHubAlertsCollector.sync_repository_alerts`.  The three taxonomy
fetches are sequential and each may raise; their per-alert upserts touch
the alert mirror only, so a fetch outcome is its error or the count of
alerts fetched.  `skip` embeds `not force and not self._should_sync(repo)`
(the eligibility property reads `GitHubAlertSync.last_successful_sync`,
which lives in the model layer outside the collector).  On any taxonomy
exception the error message truncated to 1000 characters and the error
time are recorded on the cursor and a failed result is returned; only
after all three fetches succeed are the cursor's success fields and the
repository counters written. -/
def syncRepositoryAlerts (repo : RepoRec) (tracker : SyncTracker) (skip : Bool)
    (fetchDep fetchCql fetchSec : Except String Nat) (now : Int) :
    SyncResult × SyncTracker × RepoRec :=
  let result : SyncResult := { repository_name := repo.name }
  if skip then (result, tracker, repo)
  else
    match parseRepositoryIdentifier repo with
    | none =>
      ({ result with success := false,
                     errors := ["Could not parse repository owner/name"] }, tracker, repo)
    | some _ =>
      match fetchDep with
      | .error e =>
        ({ result with success := false, errors := [e] },
         { tracker with last_sync_error := e.take 1000, last_sync_error_at := some now },
         repo)
      | .ok depCount =>
        let result := { result with dependabot_count := depCount }
        match fetchCql with
        | .error e =>
          ({ result with success := false, errors := [e] },
           { tracker with last_sync_error := e.take 1000, last_sync_error_at := some now },
           repo)
        | .ok cqlCount =>
          let result := { result with codeql_count := cqlCount }
          match fetchSec with
          | .error e =>
            ({ result with success := false, errors := [e] },
             { tracker with last_sync_error := e.take 1000, last_sync_error_at := some now },
             repo)
          | .ok secCount =>
            let result := { result with secret_scanning_count := secCount }
            ( result,
              { tracker with
                  dependabot_last_sync := some now
                  codeql_last_sync := some now
                  secret_scanning_last_sync := some now
                  dependabot_alerts_fetched := depCount
                  codeql_alerts_fetched := cqlCount
                  secret_scanning_alerts_fetched := secCount
                  full_sync_completed := true
                  last_sync_error := "" },
              { repo with
                  dependabot_alert_count := depCount
                  codeql_alert_count := cqlCount
                  secret_scanning_alert_count := secCount
                  last_alert_sync := some now } )

/-- The repository loop of `GitHubAlertsCollector.sync_organization_alerts`:
before each repository the rate-limit guard is consulted; a `True` breaks
the batch.  The per-repository sync is abstracted as `syncOne`. -/
def syncOrganizationAlerts (repos : List RepoRec) (syncOne : RepoRec → SyncResult) :
    List SyncResult :=
  match repos with
  | [] => []
  | r :: rest =>
    if shouldPauseForRateLimits then []
    else syncOne r :: syncOrganizationAlerts rest syncOne

end AlertsCollector

namespace AutoTriage

/-- The product attributes the triage helpers read. -/
structure Product where
  business_criticality : String
  has_kubernetes_config : Bool
  has_environments : Bool
  has_releases : Bool
  recent_commits_30d : Bool
  active_prs_30d : Bool
  multiple_contributors : Bool
  days_since_last_commit : Option Int
deriving DecidableEq, Repr

/-- A finding as seen by the triage rules; `product` is the resolved
`finding.test.engagement.product` chain (`None` when unavailable, matching
`has_product`/`get_product`). -/
structure Finding where
  severity : String
  epss_score : Option ℚ
  product : Option Product
deriving DecidableEq, Repr

/-- Embeds `get_product` (with `has_product`'s defensive traversal). -/
def getProduct (f : Finding) : Option Product :=
  f.product

/-- Embeds `is_tier1_product`. -/
def isTier1Product (f : Finding) : Bool :=
  match getProduct f with
  | some p => p.business_criticality = "very high"
  | none => false

/-- Embeds `is_tier2_product`. -/
def isTier2Product (f : Finding) : Bool :=
  match getProduct f with
  | some p => p.business_criticality = "high"
  | none => false

/-- Embeds `is_tier3_product`. -/
def isTier3Product (f : Finding) : Bool :=
  match getProduct f with
  | some p => p.business_criticality = "medium"
  | none => false

/-- Embeds `is_tier4_product`. -/
def isTier4Product (f : Finding) : Bool :=
  match getProduct f with
  | some p => p.business_criticality = "low"
  | none => false

/-- Embeds `is_archived_product`. -/
def isArchivedProduct (f : Finding) : Bool :=
  match getProduct f with
  | some p => p.business_criticality = "none"
  | none => false

/-- Embeds `has_high_epss`. -/
def hasHighEpss (f : Finding) (threshold : ℚ) : Bool :=
  match f.epss_score with
  | some s => decide (s ≥ threshold)
  | none => false

/-- Embeds `has_medium_epss`. -/
def hasMediumEpss (f : Finding) (min_threshold max_threshold : ℚ) : Bool :=
  match f.epss_score with
  | some s => decide (s ≥ min_threshold) && decide (s < max_threshold)
  | none => false

/-- Embeds `has_low_epss`. -/
def hasLowEpss (f : Finding) (threshold : ℚ) : Bool :=
  match f.epss_score with
  | some s => decide (s < threshold)
  | none => false

/-- Embeds `is_critical_or_high_severity`. -/
def isCriticalOrHighSeverity (f : Finding) : Bool :=
  decide (f.severity = "Critical") || decide (f.severity = "High")

/-- Embeds `is_low_or_info_severity`. -/
def isLowOrInfoSeverity (f : Finding) : Bool :=
  decide (f.severity = "Low") || decide (f.severity = "Info")

/-- Embeds `has_production_signal`. -/
def hasProductionSignal (f : Finding) : Bool :=
  match getProduct f with
  | none => false
  | some p => p.has_kubernetes_config || p.has_environments || p.has_releases

/-- Embeds `has_active_development`. -/
def hasActiveDevelopment (f : Finding) : Bool :=
  match getProduct f with
  | none => false
  | some p => p.recent_commits_30d && p.active_prs_30d && p.multiple_contributors

/-- Embeds `is_dormant_repo`. -/
def isDormantRepo (f : Finding) (days_threshold : Int) : Bool :=
  match getProduct f with
  | none => false
  | some p =>
    match p.days_since_last_commit with
    | none => false
    | some d => decide (d > days_threshold)

/-- One triage rule: a fallible predicate (a raising lambda becomes
`.error ()`), a decision, a reason and an optional confidence. -/
structure Rule where
  name : String
  condition : Finding → Except Unit Bool
  decision : String
  reason : String
  confidence : Option Nat

/-- Embeds `TRIAGE_RULES`, in source order.  Two conditions reference the unbound
name `finding` instead of their parameter `f` and therefore raise
`NameError` when evaluated: `dismiss_info_severity_low_epss` raises on its
first conjunct, and `review_high_severity_no_epss` raises exactly when its
first (correctly written) conjunct is true, because `and` short-circuits. -/
def TRIAGE_RULES : List Rule :=
  [ { name := "critical_high_epss_tier1"
      condition := fun f => .ok (isTier1Product f && hasHighEpss f (7/10) &&
        isCriticalOrHighSeverity f && hasProductionSignal f)
      decision := "ESCALATE"
      reason := "Critical/High severity with very high EPSS score (≥70%) in Tier 1 production repository - immediate action required"
      confidence := some 95 },
    { name := "high_epss_tier1_production"
      condition := fun f => .ok (isTier1Product f && hasHighEpss f (5/10) &&
        hasProductionSignal f)
      decision := "ESCALATE"
      reason := "High EPSS score (≥50%) in Tier 1 production repository - requires priority remediation"
      confidence := some 90 },
    { name := "critical_severity_tier1"
      condition := fun f => .ok (isTier1Product f && isCriticalOrHighSeverity f &&
        hasHighEpss f (3/10))
      decision := "ESCALATE"
      reason := "Critical/High severity in Tier 1 repository with moderate EPSS (≥30%)"
      confidence := some 85 },
    { name := "high_epss_tier2_production"
      condition := fun f => .ok (isTier2Product f && hasHighEpss f (6/10) &&
        hasProductionSignal f)
      decision := "ESCALATE"
      reason := "High EPSS score (≥60%) in Tier 2 production repository"
      confidence := some 85 },
    { name := "critical_severity_tier2_active"
      condition := fun f => .ok (isTier2Product f && isCriticalOrHighSeverity f &&
        hasHighEpss f (4/10) && hasActiveDevelopment f)
      decision := "ESCALATE"
      reason := "Critical/High severity in active Tier 2 repository with elevated EPSS (≥40%)"
      confidence := some 80 },
    { name := "accept_archived_repo"
      condition := fun f => .ok (isArchivedProduct f)
      decision := "ACCEPT_RISK"
      reason := "Finding in archived repository - no active maintenance planned"
      confidence := some 95 },
    { name := "accept_dormant_low_risk"
      condition := fun f => .ok (isDormantRepo f 180 && hasLowEpss f (1/10) &&
        !(isCriticalOrHighSeverity f))
      decision := "ACCEPT_RISK"
      reason := "Low risk finding in dormant repository (180+ days no commits) - deferred until repository reactivation"
      confidence := some 85 },
    { name := "accept_low_epss_tier4"
      condition := fun f => .ok (isTier4Product f && hasLowEpss f (5/100) &&
        isLowOrInfoSeverity f)
      decision := "ACCEPT_RISK"
      reason := "Low severity with minimal EPSS (<5%) in Tier 4 repository - accepted risk"
      confidence := some 80 },
    { name := "dismiss_very_low_epss_tier3_or_4"
      condition := fun f => .ok ((isTier3Product f || isTier4Product f) &&
        hasLowEpss f (2/100) && !(isCriticalOrHighSeverity f))
      decision := "DISMISS"
      reason := "Very low EPSS score (<2%) in non-critical repository (Tier 3/4) - minimal exploitation risk"
      confidence := some 85 },
    { name := "dismiss_info_severity_low_epss"
      condition := fun _ => .error ()
      decision := "DISMISS"
      reason := "Informational severity with low EPSS (<10%) - not actionable"
      confidence := some 90 },
    { name := "dismiss_low_epss_tier4_no_production"
      condition := fun f => .ok (isTier4Product f && hasLowEpss f (1/10) &&
        !(hasProductionSignal f))
      decision := "DISMISS"
      reason := "Low EPSS (<10%) in non-production Tier 4 repository - minimal business impact"
      confidence := some 80 },
    { name := "review_medium_epss_tier2"
      condition := fun f => .ok (isTier2Product f && hasMediumEpss f (2/10) (5/10))
      decision := "PENDING"
      reason := "Medium EPSS score (20-50%) in Tier 2 repository - manual assessment recommended"
      confidence := some 70 },
    { name := "review_high_severity_no_epss"
      condition := fun f =>
        if isCriticalOrHighSeverity f then .error () else .ok false
      decision := "PENDING"
      reason := "High/Critical severity in Tier 1/2 without EPSS score - manual triage required"
      confidence := some 75 },
    { name := "default_pending"
      condition := fun _ => .ok true
      decision := "PENDING"
      reason := "No specific auto-triage rule matched - requires manual review"
      confidence := some 50 } ]

/-- The decision dictionary returned by `triage_single_finding`. -/
structure TriageOutcome where
  decision : String
  reason : String
  rule_name : String
  confidence : Nat
deriving DecidableEq, Repr

/-- The no-rule-matched fallback return of `triage_single_finding`. -/
def pendingFallbackOutcome : TriageOutcome :=
  { decision := "PENDING"
    reason := "No auto-triage rule matched - requires manual review"
    rule_name := "default"
    confidence := 0 }

/-- Embeds `AutoTriageEngine.triage_single_finding`: first-match scan; a raising
condition is caught, logged and skipped (`continue`); `rule.get
('confidence', 80)` defaults a missing confidence to 80. -/
def triageSingleFinding (rules : List Rule) (f : Finding) : TriageOutcome :=
  match rules with
  | [] => pendingFallbackOutcome
  | r :: rest =>
    match r.condition f with
    | .error _ => triageSingleFinding rest f
    | .ok true =>
      { decision := r.decision, reason := r.reason, rule_name := r.name,
        confidence := r.confidence.getD 80 }
    | .ok false => triageSingleFinding rest f

end AutoTriage

namespace EPSS

/-- The finding fields the EPSS updater touches. -/
structure EFinding where
  id : Nat
  epss_score : Option ℚ
  epss_percentile : Option ℚ
deriving DecidableEq, Repr

/-- One entry of the fetched score mapping. -/
structure ScoreData where
  epss : ℚ
  percentile : ℚ
deriving DecidableEq, Repr

/-- How the loop body of `_update_findings_with_scores` classified one
finding (the three stats counters it can increment). -/
inductive UpdateCategory where
  | newScore
  | unchanged
  | updated
deriving DecidableEq, Repr

/-- Outcome of the loop body for one finding: its counter, whether it was
flagged as a significant change, the stored row afterwards, and whether a
write happened. -/
structure UpdateStep where
  category : UpdateCategory
  significant : Bool
  finding : EFinding
  wrote : Bool
deriving DecidableEq, Repr

/-- Embeds `EPSSUpdater.SIGNIFICANT_CHANGE_THRESHOLD` (0.2). -/
def SIGNIFICANT_CHANGE_THRESHOLD : ℚ := 2/10

/-- The per-finding body of `EPSSUpdater._update_findings_with_scores`,
after the cve and score lookups succeeded: `old_epss = finding.epss_score
or 0.0`; an exactly-unchanged (score and percentile) finding is skipped
with no write before the significance flag is taken. -/
def updateFindingWithScore (f : EFinding) (s : ScoreData) : UpdateStep :=
  let old_epss : ℚ :=
    match f.epss_score with
    | some v => if v = 0 then 0 else v
    | none => 0
  let is_significant_change := decide (|s.epss - old_epss| ≥ SIGNIFICANT_CHANGE_THRESHOLD)
  match f.epss_score with
  | none =>
    { category := .newScore, significant := is_significant_change,
      finding := { f with epss_score := some s.epss, epss_percentile := some s.percentile },
      wrote := true }
  | some v =>
    if v = s.epss ∧ f.epss_percentile = some s.percentile then
      { category := .unchanged, significant := false, finding := f, wrote := false }
    else
      { category := .updated, significant := is_significant_change,
        finding := { f with epss_score := some s.epss, epss_percentile := some s.percentile },
        wrote := true }

/-- Generic association-list lookup (a Python dict `.get`). -/
def assocGet {α β : Type} [DecidableEq α] (l : List (α × β)) (k : α) : Option β :=
  match l with
  | [] => none
  | (k', v) :: rest => if k' = k then some v else assocGet rest k

/-- Embeds `EPSSUpdater._update_findings_with_scores`: iterate the findings,
skipping those without a cve entry or without a fetched score; collect the
ids flagged for re-triage when `trigger_triage` is set. -/
def updateFindingsWithScores (findings : List EFinding) (cves : List (Nat × String))
    (scores : List (String × ScoreData)) (trigger_triage : Bool) :
    List UpdateStep × List Nat :=
  match findings with
  | [] => ([], [])
  | f :: rest =>
    let tail := updateFindingsWithScores rest cves scores trigger_triage
    match assocGet cves f.id with
    | none => tail
    | some cve =>
      match assocGet scores cve with
      | none => tail
      | some s =>
        let step := updateFindingWithScore f s
        (step :: tail.1,
         (if step.significant && trigger_triage then [f.id] else []) ++ tail.2)

end EPSS

namespace FindingsConverter

/-- A world in which the three GitHub `Test_Type` rows exist (the
converter's environment precondition). -/
def exWorld : World :=
  { testTypes := ["GitHub Dependabot", "GitHub CodeQL", "GitHub Secret Scanning"] }

/-- A Dependabot alert in state `fixed` whose `fixed_at` is absent, as a
resolved alert can be mirrored when the source omits the fix time. -/
def exFixedAlert : GHAlert :=
  { alert_type := "dependabot", github_alert_id := "7", state := "fixed",
    severity := "high", title := "t", description := "", html_url := "u",
    cve := "", cwe := "", rule_id := "", file_path := "", secret_type := "",
    package_name := "lodash", package_ecosystem := "", vulnerable_version := "",
    patched_version := "", start_line := none, end_line := none,
    created_at := some 0, fixed_at := none,
    repo_name := "r", repo_github_repo_id := "42", repo_product := some "p" }

/-- Embeds `(created, mitigated)` of the first projection of `exFixedAlert`,
performed at time 0. -/
def exFirstOutcome : Option (Bool × Option Int) :=
  match createOrUpdateFinding exWorld exFixedAlert 0 with
  | .ok (f, created, _) => some (created, f.mitigated)
  | .error _ => none

/-- The store after the first projection of `exFixedAlert`. -/
def exWorld1 : World :=
  match createOrUpdateFinding exWorld exFixedAlert 0 with
  | .ok (_, _, w) => w
  | .error _ => exWorld

/-- Embeds `(created, mitigated)` of the second projection of the same unchanged
alert, performed one day later (time 86400). -/
def exSecondOutcome : Option (Bool × Option Int) :=
  match createOrUpdateFinding exWorld1 exFixedAlert 86400 with
  | .ok (f, created, _) => some (created, f.mitigated)
  | .error _ => none

/-- The same alert with its fixed-at timestamp present. -/
def exWitAlert : GHAlert :=
  { exFixedAlert with fixed_at := some 5 }

/-- The finding produced by the first projection of `exWitAlert`. -/
def exWitFinding : Finding :=
  match createOrUpdateFinding exWorld exWitAlert 0 with
  | .ok (f, _, _) => f
  | .error _ => {}

/-- The store after the first projection of `exWitAlert`. -/
def exWitWorld1 : World :=
  match createOrUpdateFinding exWorld exWitAlert 0 with
  | .ok (_, _, w) => w
  | .error _ => exWorld

end FindingsConverter

/-- C5: for every signal mapping S and every known days-since-last-commit
value d with d > 180, `classify(S, d)` returns tier archived with confidence
score exactly 100, regardless of the contents of S. -/
theorem classify_archived_over_180 (S : TierClassifier.Signals) (d : Int)
    (h : d > 180) :
    (TierClassifier.classify S (some d)).tier = TierClassifier.Tier.archived ∧
    (TierClassifier.classify S (some d)).confidence_score = 100 := by
  have hne : d ≠ 0 := by omega
  simp [TierClassifier.classify, hne, h]

/-- Witness for `classify_archived_over_180` at S = [], d = 200. -/
theorem classify_archived_over_180_witness :
    (200 : Int) > 180 ∧
    ((TierClassifier.classify [] (some 200)).tier = TierClassifier.Tier.archived ∧
     (TierClassifier.classify [] (some 200)).confidence_score = 100) :=
  ⟨by decide, classify_archived_over_180 [] 200 (by decide)⟩

/-- C9: severity defaults are asymmetric by taxonomy.  A CodeQL alert whose
source `security_severity_level` is unrecognized is stored with severity
`"medium"` by `_map_codeql_severity` and projected by `_map_severity` to a
finding of severity `"Medium"`, while an alert of the general taxonomies
(whose mirror severity is the raw lower-cased source string) with an
unrecognized severity projects to `"Info"`. -/
theorem severity_default_asymmetry (s t : String)
    (hs : lowerStr s ∉ ["critical", "high", "medium", "low", "warning", "note", "error"])
    (ht : lowerStr t ∉ ["critical", "high", "moderate", "medium", "low",
                        "warning", "error", "note", "info"]) :
    FindingsConverter.mapSeverity (RestClient.mapCodeqlSeverity (some s)) = "Medium" ∧
    FindingsConverter.mapSeverity t = "Info" := by
  simp only [List.mem_cons, List.not_mem_nil, or_false, not_or] at hs ht
  obtain ⟨h1, h2, h3, h4, h5, h6, h7⟩ := hs
  obtain ⟨g1, g2, g3, g4, g5, g6, g7, g8, g9⟩ := ht
  constructor
  · have hmed : RestClient.mapCodeqlSeverity (some s) = "medium" := by
      by_cases hse : s = ""
      · simp [RestClient.mapCodeqlSeverity, hse]
      · simp [RestClient.mapCodeqlSeverity, hse, h1, h2, h3, h4, h5, h6, h7]
    rw [hmed]
    decide
  · by_cases hte : t = ""
    · subst hte
      decide
    · simp [FindingsConverter.mapSeverity, hte,
        FindingsConverter.severityMapGet, g1, g2, g3, g4, g5, g6, g7, g8, g9]

/-- Witness for `severity_default_asymmetry` at s = t = "bogus". -/
theorem severity_default_asymmetry_witness :
    (lowerStr "bogus" ∉ ["critical", "high", "medium", "low", "warning", "note", "error"] ∧
     lowerStr "bogus" ∉ ["critical", "high", "moderate", "medium", "low",
                         "warning", "error", "note", "info"]) ∧
    (FindingsConverter.mapSeverity (RestClient.mapCodeqlSeverity (some "bogus")) = "Medium" ∧
     FindingsConverter.mapSeverity "bogus" = "Info") :=
  ⟨⟨by decide, by decide⟩,
   severity_default_asymmetry "bogus" "bogus" (by decide) (by decide)⟩


namespace PatternMatch

theorem containsSub_iff (needle hay : List Char) :
    containsSub needle hay = true ↔ SubOf needle hay := by
  induction hay with
  | nil =>
    simp only [containsSub, List.isEmpty_iff, SubOf]
    constructor
    · rintro rfl
      exact ⟨[], [], rfl⟩
    · rintro ⟨pre, suf, h⟩
      have hlen := congrArg List.length h
      simp only [List.length_nil, List.length_append] at hlen
      have : needle.length = 0 := by omega
      exact List.eq_nil_of_length_eq_zero this
  | cons c rest ih =>
    simp only [containsSub, Bool.or_eq_true, List.isPrefixOf_iff_prefix, ih]
    constructor
    · rintro (⟨t, ht⟩ | ⟨pre, suf, rfl⟩)
      · exact ⟨[], t, by simpa using ht.symm⟩
      · exact ⟨c :: pre, suf, by simp⟩
    · rintro ⟨pre, suf, h⟩
      match pre, h with
      | [], h => exact Or.inl ⟨suf, by simpa using h.symm⟩
      | p :: pre, h =>
        right
        refine ⟨pre, suf, ?_⟩
        simpa using congrArg List.tail h

theorem dropAfterFirst_sound {seg s s' : List Char}
    (h : dropAfterFirst seg s = some s') :
    ∃ pre, s = pre ++ seg ++ s' := by
  induction s with
  | nil =>
    simp only [dropAfterFirst] at h
    split at h
    · rename_i hemp
      simp only [List.isEmpty_iff] at hemp
      cases h
      exact ⟨[], by simp [hemp]⟩
    · cases h
  | cons c rest ih =>
    simp only [dropAfterFirst] at h
    split at h
    · rename_i hpre
      rw [ List.isPrefixOf_iff_prefix] at hpre
      obtain ⟨t, ht⟩ := hpre
      cases h
      refine ⟨[], ?_⟩
      simp only [List.nil_append]
      rw [← ht]
      simp
    · obtain ⟨pre, hpre⟩ := ih h
      exact ⟨c :: pre, by simp [hpre]⟩

theorem dropAfterFirst_complete {seg : List Char} (pre suf : List Char) :
    ∃ s', dropAfterFirst seg (pre ++ seg ++ suf) = some s' ∧ suf <:+ s' := by
  induction pre with
  | nil =>
    simp only [List.nil_append]
    cases hs : seg ++ suf with
    | nil =>
      have hseg : seg = [] := by
        cases seg with
        | nil => rfl
        | cons a b => simp at hs
      subst hseg
      simp only [List.nil_append] at hs
      subst hs
      exact ⟨[], by simp [dropAfterFirst], List.suffix_refl _⟩
    | cons c rest =>
      refine ⟨suf, ?_, List.suffix_refl _⟩
      rw [← hs]
      cases seg with
      | nil =>
        simp only [List.nil_append] at hs
        subst hs
        simp [dropAfterFirst]
      | cons a b =>
        simp only [List.cons_append] at hs ⊢
        have hpre : (a :: b).isPrefixOf (a :: (b ++ suf)) = true := by
          rw [ List.isPrefixOf_iff_prefix]
          exact ⟨suf, by simp⟩
        simp only [dropAfterFirst, hpre, if_pos]
        congr 1
        rw [show a :: (b ++ suf) = (a :: b) ++ suf by simp]
        rw [List.drop_left' (by simp)]
  | cons p pre ih =>
    obtain ⟨s', hs', hsuf⟩ := ih
    by_cases hpre : seg.isPrefixOf (p :: (pre ++ seg ++ suf)) = true
    · rw [ List.isPrefixOf_iff_prefix] at hpre
      obtain ⟨t, ht⟩ := hpre
      refine ⟨(p :: (pre ++ seg ++ suf)).drop seg.length, ?_, ?_⟩
      · have hpre' : seg.isPrefixOf (p :: (pre ++ seg ++ suf)) = true := by
          rw [ List.isPrefixOf_iff_prefix]
          exact ⟨t, ht⟩
        show dropAfterFirst seg (p :: (pre ++ seg ++ suf)) = _
        simp only [dropAfterFirst, hpre', if_pos]
      · -- `suf` is a suffix of what remains after dropping `seg.length`
        -- characters: both are suffixes of the same list and the
        -- remainder is strictly longer than `suf`.
        have h1 : suf <:+ p :: (pre ++ seg ++ suf) := by
          refine ⟨p :: (pre ++ seg), ?_⟩
          simp
        have h2 : (p :: (pre ++ seg ++ suf)).drop seg.length <:+
            p :: (pre ++ seg ++ suf) := List.drop_suffix _ _
        rcases List.suffix_or_suffix_of_suffix h1 h2 with h | h
        · exact h
        · exfalso
          have hlen := h.length_le
          rw [List.length_drop] at hlen
          simp only [List.length_cons, List.length_append] at hlen
          omega
    · refine ⟨s', ?_, hsuf⟩
      show dropAfterFirst seg (p :: (pre ++ seg ++ suf)) = some s'
      simp only [dropAfterFirst]
      rw [if_neg]
      · simpa using hs'
      · simpa using hpre

theorem segsOccur_append {segs : List (List Char)} {s : List Char}
    (pre : List Char) (h : SegsOccur segs s) : SegsOccur segs (pre ++ s) := by
  cases h with
  | nil => exact .nil _
  | cons seg rest pre2 suf h2 =>
    have := SegsOccur.cons seg rest (pre ++ pre2) suf h2
    simpa using this

theorem segsOccur_of_suffix {segs : List (List Char)} {s s' : List Char}
    (hsuf : s <:+ s') (h : SegsOccur segs s) : SegsOccur segs s' := by
  obtain ⟨pre, rfl⟩ := hsuf
  exact segsOccur_append pre h

/-- Embeds `segSearch` decides `SegsOccur`: the greedy leftmost search implements
the regex `seg₀.*seg₁.*…` search semantics. -/
theorem segSearch_iff (segs : List (List Char)) (s : List Char) :
    segSearch segs s = true ↔ SegsOccur segs s := by
  induction segs generalizing s with
  | nil => simp [segSearch, SegsOccur.nil]
  | cons seg rest ih =>
    constructor
    · intro h
      rw [segSearch] at h
      cases hd : dropAfterFirst seg s with
      | none => rw [hd] at h; cases h
      | some s' =>
        rw [hd] at h
        obtain ⟨pre, rfl⟩ := dropAfterFirst_sound hd
        exact .cons seg rest pre s' ((ih s').mp h)
    · intro h
      cases h with
      | cons seg rest pre suf h2 =>
        obtain ⟨s', hd, hsuf⟩ := @dropAfterFirst_complete seg pre suf
        rw [segSearch, hd]
        exact (ih s').mpr (segsOccur_of_suffix hsuf h2)

end PatternMatch

/-- C3 (amended): the claimed case-insensitive iff holds of
`GitHubRepositoryCollector._check_patterns` (the GraphQL bulk path), while
`SignalDetector._detect_pattern` satisfies the analogous iff only with
case-SENSITIVE matching and with exact path equality in place of substring
matching for non-wildcard file patterns. -/
theorem pattern_match_characterization (file_paths patterns : List String) :
    (Collector.checkPatterns file_paths patterns = true ↔
      ∃ p ∈ patterns, ∃ x ∈ file_paths, PatternMatch.SpecMatchCI p x) ∧
    (SignalDetector.detectPattern file_paths patterns = true ↔
      ∃ p ∈ patterns, ∃ x ∈ file_paths, PatternMatch.SpecMatchCS p x) := by
  constructor
  · unfold Collector.checkPatterns
    rw [List.any_eq_true]
    refine exists_congr fun p => and_congr_right fun _ => ?_
    unfold PatternMatch.SpecMatchCI
    split_ifs with h1 h2
    · rw [List.any_eq_true]
      exact exists_congr fun x => and_congr_right fun _ => PatternMatch.segSearch_iff _ _
    · rw [List.any_eq_true]
      exact exists_congr fun x => and_congr_right fun _ => List.isPrefixOf_iff_prefix
    · rw [List.any_eq_true]
      exact exists_congr fun x => and_congr_right fun _ => PatternMatch.containsSub_iff _ _
  · unfold SignalDetector.detectPattern
    by_cases hempty : file_paths.isEmpty
    · rw [if_pos hempty]
      rw [List.isEmpty_iff] at hempty
      subst hempty
      simp
    · rw [if_neg hempty]
      rw [List.any_eq_true]
      refine exists_congr fun p => and_congr_right fun _ => ?_
      unfold PatternMatch.SpecMatchCS
      split_ifs with h1 h2
      · rw [List.any_eq_true]
        exact exists_congr fun x => and_congr_right fun _ => PatternMatch.segSearch_iff _ _
      · rw [List.any_eq_true]
        exact exists_congr fun x => and_congr_right fun _ => List.isPrefixOf_iff_prefix
      · rw [List.contains_iff_exists_mem_beq]
        exact exists_congr fun x => and_congr_right fun _ => beq_iff_eq.trans eq_comm

/-- C3 counterexample: on the configured CI/CD pattern list and the listing
`["ci/jenkinsfile"]`, the claimed case-insensitive-substring semantics
matches (pattern `Jenkinsfile`), but `SignalDetector._detect_pattern`
returns `False` — it requires exact, case-sensitive membership. -/
theorem detect_pattern_not_case_insensitive :
    SignalDetector.detectPattern ["ci/jenkinsfile"] SignalDetector.CI_CD_PATTERNS = false ∧
    (∃ p ∈ SignalDetector.CI_CD_PATTERNS, ∃ x ∈ (["ci/jenkinsfile"] : List String),
      PatternMatch.SpecMatchCI p x) := by
  constructor
  · decide
  · refine ⟨"Jenkinsfile", by decide, "ci/jenkinsfile", by decide, ?_⟩
    unfold PatternMatch.SpecMatchCI
    rw [if_neg (by decide), if_neg (by decide)]
    exact (PatternMatch.containsSub_iff _ _).mp (by decide)
/-- C4: the spec requires the organization batch to stop before a
repository whenever remaining quota on either transport falls below 20%,
and `RateLimitStatus.should_pause` encodes exactly that threshold — but the
orchestrator's guard `_should_pause_for_rate_limits` is a placeholder that
ignores all rate-limit state and returns `False`, so the batch never stops
early: every repository is processed regardless of quota. -/
theorem rate_limit_guard_never_pauses :
    AlertsCollector.RateLimitStatus.should_pause
      { graphql_remaining := 100, graphql_limit := 1000,
        rest_remaining := 5000, rest_limit := 5000 } = true ∧
    AlertsCollector.shouldPauseForRateLimits = false ∧
    ∀ (repos : List AlertsCollector.RepoRec)
      (syncOne : AlertsCollector.RepoRec → AlertsCollector.SyncResult),
      (AlertsCollector.syncOrganizationAlerts repos syncOne).length = repos.length := by
  refine ⟨?_, rfl, ?_⟩
  · simp only [AlertsCollector.RateLimitStatus.should_pause,
      AlertsCollector.RateLimitStatus.graphql_percent_used,
      AlertsCollector.RateLimitStatus.rest_percent_used, Bool.or_eq_true,
      decide_eq_true_eq]
    left
    norm_num
  · intro repos syncOne
    induction repos with
    | nil => rfl
    | cons r rest ih =>
      simp [AlertsCollector.syncOrganizationAlerts,
        AlertsCollector.shouldPauseForRateLimits, ih]

/-- C8: in the EPSS update loop body, a finding receiving a new score is
flagged as a significant change exactly when the absolute delta against the
old score (defaulting to 0 when previously absent) is at least 0.2, and a
finding whose fetched score and percentile both equal the stored values is
skipped: counted as unchanged, no write, row untouched. -/
theorem epss_significant_change_flagging (f : EPSS.EFinding) (s : EPSS.ScoreData) :
    ((EPSS.updateFindingWithScore f s).significant = true ↔
      |s.epss - f.epss_score.getD 0| ≥ 2/10) ∧
    (f.epss_score = some s.epss → f.epss_percentile = some s.percentile →
      (EPSS.updateFindingWithScore f s).wrote = false ∧
      (EPSS.updateFindingWithScore f s).finding = f ∧
      (EPSS.updateFindingWithScore f s).category = EPSS.UpdateCategory.unchanged) := by
  constructor
  · cases hf : f.epss_score with
    | none =>
      simp [EPSS.updateFindingWithScore, EPSS.SIGNIFICANT_CHANGE_THRESHOLD, hf]
    | some v =>
      have hold : (if v = 0 then (0 : ℚ) else v) = v := by
        split <;> simp_all
      by_cases heq : v = s.epss ∧ f.epss_percentile = some s.percentile
      · obtain ⟨h1, h2⟩ := heq
        subst h1
        simp [EPSS.updateFindingWithScore, EPSS.SIGNIFICANT_CHANGE_THRESHOLD, hf,
          h2, hold]
      · simp [EPSS.updateFindingWithScore, EPSS.SIGNIFICANT_CHANGE_THRESHOLD, hf,
          heq, hold]
  · intro h1 h2
    simp [EPSS.updateFindingWithScore, h1, h2]

/-- Witness for `epss_significant_change_flagging`: a finding whose stored
score 0.1 and percentile 0.5 match the fetched values exactly. -/
theorem epss_significant_change_flagging_witness :
    ((⟨1, some (1/10), some (1/2)⟩ : EPSS.EFinding).epss_score =
       some (⟨1/10, 1/2⟩ : EPSS.ScoreData).epss ∧
     (⟨1, some (1/10), some (1/2)⟩ : EPSS.EFinding).epss_percentile =
       some (⟨1/10, 1/2⟩ : EPSS.ScoreData).percentile) ∧
    ((EPSS.updateFindingWithScore ⟨1, some (1/10), some (1/2)⟩ ⟨1/10, 1/2⟩).wrote = false ∧
     (EPSS.updateFindingWithScore ⟨1, some (1/10), some (1/2)⟩ ⟨1/10, 1/2⟩).finding =
       ⟨1, some (1/10), some (1/2)⟩ ∧
     (EPSS.updateFindingWithScore ⟨1, some (1/10), some (1/2)⟩ ⟨1/10, 1/2⟩).category =
       EPSS.UpdateCategory.unchanged) :=
  ⟨⟨rfl, rfl⟩, (epss_significant_change_flagging ⟨1, some (1/10), some (1/2)⟩ ⟨1/10, 1/2⟩).2 rfl rfl⟩

/-- C7: a rule whose predicate raises is skipped and evaluation continues
with the next rule in order — the scan behaves as if the raising rules were
absent — and the evaluation is total: the empty tail falls through to the
PENDING fallback, so exactly one decision is always returned and no
predicate exception propagates. -/
theorem triage_rule_exception_skipped (rules : List AutoTriage.Rule) (f : AutoTriage.Finding) :
    AutoTriage.triageSingleFinding rules f =
      AutoTriage.triageSingleFinding
        (rules.filter fun r =>
          match r.condition f with
          | .error _ => false
          | .ok _ => true) f ∧
    AutoTriage.triageSingleFinding [] f = AutoTriage.pendingFallbackOutcome := by
  refine ⟨?_, rfl⟩
  induction rules with
  | nil => rfl
  | cons r rest ih =>
    cases hc : r.condition f with
    | error e =>
      simp only [AutoTriage.triageSingleFinding, hc, List.filter_cons,
        Bool.false_eq_true, if_false]
      exact ih
    | ok b =>
      cases b with
      | true =>
        simp [AutoTriage.triageSingleFinding, hc, List.filter_cons]
      | false =>
        simp only [AutoTriage.triageSingleFinding, hc, List.filter_cons, if_pos]
        exact ih

/-- C6: a finding with severity Critical, exploit score 0.75, whose owning
product has business criticality "very high" and at least one production
signal, is decided ESCALATE with confidence 95 by the first matching rule,
`critical_high_epss_tier1`. -/
theorem triage_critical_high_epss_tier1 (f : AutoTriage.Finding) (p : AutoTriage.Product)
    (hs : f.severity = "Critical") (he : f.epss_score = some (3/4))
    (hp : f.product = some p) (hb : p.business_criticality = "very high")
    (hprod : p.has_kubernetes_config = true ∨ p.has_environments = true ∨
             p.has_releases = true) :
    AutoTriage.triageSingleFinding AutoTriage.TRIAGE_RULES f =
      { decision := "ESCALATE"
        reason := "Critical/High severity with very high EPSS score (≥70%) in Tier 1 production repository - immediate action required"
        rule_name := "critical_high_epss_tier1"
        confidence := 95 } := by
  have h1 : AutoTriage.isTier1Product f = true := by
    simp [AutoTriage.isTier1Product, AutoTriage.getProduct, hp, hb]
  have h2 : AutoTriage.hasHighEpss f (7/10) = true := by
    simp only [AutoTriage.hasHighEpss, he, decide_eq_true_eq]
    norm_num
  have h3 : AutoTriage.isCriticalOrHighSeverity f = true := by
    simp [AutoTriage.isCriticalOrHighSeverity, hs]
  have h4 : AutoTriage.hasProductionSignal f = true := by
    rcases hprod with h | h | h <;>
      simp [AutoTriage.hasProductionSignal, AutoTriage.getProduct, hp, h]
  simp [AutoTriage.TRIAGE_RULES, AutoTriage.triageSingleFinding, h1, h2, h3, h4]

/-- Witness for `triage_critical_high_epss_tier1` at a concrete finding in
a very-high-criticality product with a kubernetes production signal. -/
theorem triage_critical_high_epss_tier1_witness :
    ((⟨"Critical", some (3/4),
        some ⟨"very high", true, false, false, false, false, false, none⟩⟩ :
        AutoTriage.Finding).severity = "Critical" ∧
     (⟨"Critical", some (3/4),
        some ⟨"very high", true, false, false, false, false, false, none⟩⟩ :
        AutoTriage.Finding).epss_score = some (3/4)) ∧
    AutoTriage.triageSingleFinding AutoTriage.TRIAGE_RULES
      ⟨"Critical", some (3/4),
        some ⟨"very high", true, false, false, false, false, false, none⟩⟩ =
      { decision := "ESCALATE"
        reason := "Critical/High severity with very high EPSS score (≥70%) in Tier 1 production repository - immediate action required"
        rule_name := "critical_high_epss_tier1"
        confidence := 95 } :=
  ⟨⟨rfl, rfl⟩,
   triage_critical_high_epss_tier1
     ⟨"Critical", some (3/4), some ⟨"very high", true, false, false, false, false, false, none⟩⟩
     ⟨"very high", true, false, false, false, false, false, none⟩
     rfl rfl rfl rfl (Or.inl rfl)⟩

/-- C2: per-repository alert sync is all-or-nothing on the cursor.  When all
three taxonomy fetches succeed, the cursor receives the per-taxonomy
last-sync timestamps, fetched counts, full-sync flag and a cleared error
(and the repository counters are updated); when any fetch raises, only the
truncated error message and the error timestamp are written — every success
field keeps its previous value — and a failed result is returned rather
than an exception propagating. -/
theorem sync_repository_cursor_all_or_nothing
    (repo : AlertsCollector.RepoRec) (tracker : AlertsCollector.SyncTracker)
    (fD fC fS : Except String Nat) (now : Int) (o n : String)
    (hparse : AlertsCollector.parseRepositoryIdentifier repo = some (o, n)) :
    (∀ dep cql sec, fD = .ok dep → fC = .ok cql → fS = .ok sec →
      AlertsCollector.syncRepositoryAlerts repo tracker false fD fC fS now =
        ({ repository_name := repo.name, dependabot_count := dep, codeql_count := cql,
           secret_scanning_count := sec, errors := [], success := true },
         { tracker with
             dependabot_last_sync := some now
             codeql_last_sync := some now
             secret_scanning_last_sync := some now
             dependabot_alerts_fetched := dep
             codeql_alerts_fetched := cql
             secret_scanning_alerts_fetched := sec
             full_sync_completed := true
             last_sync_error := "" },
         { repo with
             dependabot_alert_count := dep
             codeql_alert_count := cql
             secret_scanning_alert_count := sec
             last_alert_sync := some now })) ∧
    (∀ e, (fD = .error e ∨ (∃ dep, fD = .ok dep ∧ fC = .error e) ∨
            (∃ dep cql, fD = .ok dep ∧ fC = .ok cql ∧ fS = .error e)) →
      (AlertsCollector.syncRepositoryAlerts repo tracker false fD fC fS now).2.1 =
        { tracker with last_sync_error := e.take 1000, last_sync_error_at := some now } ∧
      (AlertsCollector.syncRepositoryAlerts repo tracker false fD fC fS now).1.success = false ∧
      (AlertsCollector.syncRepositoryAlerts repo tracker false fD fC fS now).1.errors = [e] ∧
      (AlertsCollector.syncRepositoryAlerts repo tracker false fD fC fS now).2.2 = repo) := by
  constructor
  · intro dep cql sec hd hc hs
    subst hd hc hs
    simp [AlertsCollector.syncRepositoryAlerts, hparse]
  · intro e h
    rcases h with hd | ⟨dep, hd, hc⟩ | ⟨dep, cql, hd, hc, hs⟩
    · subst hd
      simp [AlertsCollector.syncRepositoryAlerts, hparse]
    · subst hd hc
      simp [AlertsCollector.syncRepositoryAlerts, hparse]
    · subst hd hc hs
      simp [AlertsCollector.syncRepositoryAlerts, hparse]

/-- Witness for `sync_repository_cursor_all_or_nothing`: a repository whose
GitHub URL parses, a fresh cursor, a successful Dependabot fetch and a
CodeQL fetch that raises "boom". -/
theorem sync_repository_cursor_all_or_nothing_witness :
    AlertsCollector.parseRepositoryIdentifier
      { name := "org/repo", github_url := "https://github.com/org/repo" } =
      some ("org", "repo") ∧
    ((AlertsCollector.syncRepositoryAlerts
        { name := "org/repo", github_url := "https://github.com/org/repo" }
        {} false (.ok 1) (.error "boom") (.ok 0) 5).2.1 =
      { ({} : AlertsCollector.SyncTracker) with
          last_sync_error := "boom".take 1000, last_sync_error_at := some 5 } ∧
     (AlertsCollector.syncRepositoryAlerts
        { name := "org/repo", github_url := "https://github.com/org/repo" }
        {} false (.ok 1) (.error "boom") (.ok 0) 5).1.success = false ∧
     (AlertsCollector.syncRepositoryAlerts
        { name := "org/repo", github_url := "https://github.com/org/repo" }
        {} false (.ok 1) (.error "boom") (.ok 0) 5).1.errors = ["boom"] ∧
     (AlertsCollector.syncRepositoryAlerts
        { name := "org/repo", github_url := "https://github.com/org/repo" }
        {} false (.ok 1) (.error "boom") (.ok 0) 5).2.2 =
       { name := "org/repo", github_url := "https://github.com/org/repo" }) :=
  ⟨by decide,
   (sync_repository_cursor_all_or_nothing
      { name := "org/repo", github_url := "https://github.com/org/repo" }
      {} (.ok 1) (.error "boom") (.ok 0) 5 "org" "repo" (by decide)).2
     "boom" (Or.inr (Or.inl ⟨1, rfl, rfl⟩))⟩

/-- When the tier-1 test fails, `classify` never returns tier 1 (the
archived short-circuit and the tier 2–4 branches all assign other tiers). -/
theorem classify_tier_ne_one_of_isTier1_none (S : TierClassifier.Signals)
    (days : Option Int) (h : TierClassifier.isTier1 S = none) :
    (TierClassifier.classify S days).tier ≠ TierClassifier.Tier.one := by
  unfold TierClassifier.classify
  rw [h]
  cases days with
  | none =>
    cases h2 : TierClassifier.isTier2 S with
    | some r => intro hc; cases hc
    | none =>
      cases h3 : TierClassifier.isTier3 S with
      | some r => intro hc; cases hc
      | none => intro hc; cases hc
  | some dv =>
    by_cases hb : (decide (dv ≠ 0) && decide (dv > 180)) = true
    · simp only [hb, if_true]
      intro hc; cases hc
    · have hb' : (decide (dv ≠ 0) && decide (dv > 180)) = false := by
        simpa using hb
      simp only [hb', Bool.false_eq_true, if_false]
      cases h2 : TierClassifier.isTier2 S with
      | some r => intro hc; cases hc
      | none =>
        cases h3 : TierClassifier.isTier3 S with
        | some r => intro hc; cases hc
        | none => intro hc; cases hc

/-- C10: the two transport paths are not signal-equivalent.  The GraphQL
signal mapping never contains the keys `has_monitoring_config` or
`multiple_contributors` (it emits `has_monitoring` and
`active_contributors` instead), so both tier-1 branches of the classifier —
each requiring `has_monitoring_config` — can never fire and no repository
synced via the GraphQL path is ever assigned tier 1; the REST path emits
those keys, and on the same underlying facts (a Dockerfile, a datadog
config, environments, a recent commit) assigns tier 1 where the GraphQL
path yields tier 4. -/
theorem graphql_path_cannot_assign_tier1 :
    (∀ (now : Int) (d : Collector.GraphqlRepoData),
      "has_monitoring_config" ∉ (Collector.detectSignalsFromGraphql now d).map Prod.fst ∧
      "multiple_contributors" ∉ (Collector.detectSignalsFromGraphql now d).map Prod.fst ∧
      "has_monitoring" ∈ (Collector.detectSignalsFromGraphql now d).map Prod.fst ∧
      "active_contributors" ∈ (Collector.detectSignalsFromGraphql now d).map Prod.fst) ∧
    (∀ (now : Int) (d : Collector.GraphqlRepoData) (days : Option Int),
      (TierClassifier.classify (Collector.detectSignalsFromGraphql now d) days).tier ≠
        TierClassifier.Tier.one) ∧
    ((TierClassifier.classify
        (SignalDetector.detectAllSignals ["Dockerfile", "datadog.yaml"]
          ⟨true, false, false, true, false, false, false, false, false, none, false⟩)
        (some 5)).tier = TierClassifier.Tier.one ∧
     (TierClassifier.classify
        (Collector.detectSignalsFromGraphql 0
          ⟨["Dockerfile", "datadog.yaml"], 1, 0, [], 0, [], 0, some 0, 0, none, ""⟩)
        (some 5)).tier = TierClassifier.Tier.four) := by
  refine ⟨?_, ?_, ?_, ?_⟩
  · intro now d
    refine ⟨?_, ?_, ?_, ?_⟩ <;> simp [Collector.detectSignalsFromGraphql]
  · intro now d days
    have hmon : TierClassifier.sigGet (Collector.detectSignalsFromGraphql now d)
        "has_monitoring_config" = false := by
      simp [Collector.detectSignalsFromGraphql, TierClassifier.sigGet]
    have ht1 : TierClassifier.isTier1 (Collector.detectSignalsFromGraphql now d) = none := by
      unfold TierClassifier.isTier1
      rw [hmon]
      simp
    exact classify_tier_ne_one_of_isTier1_none _ days ht1
  · decide
  · decide

namespace FindingsConverter

theorem findingLookup_none_not_mem {l : List (FindingKey × Finding)} {k : FindingKey}
    (h : findingLookup l k = none) : ∀ kv ∈ l, kv.1 ≠ k := by
  induction l with
  | nil => intro kv hkv; cases hkv
  | cons p rest ih =>
    obtain ⟨pk, pf⟩ := p
    intro kv hkv
    rw [findingLookup] at h
    split at h
    · cases h
    · rename_i hne
      rw [List.mem_cons] at hkv
      rcases hkv with rfl | hkv
      · exact hne
      · exact ih h kv hkv

theorem findingLookup_map_put {l : List (FindingKey × Finding)} {k : FindingKey}
    (f : Finding) (h : (findingLookup l k).isSome) :
    findingLookup (l.map fun kv => if kv.1 = k then (k, f) else kv) k = some f := by
  induction l with
  | nil => simp [findingLookup] at h
  | cons p rest ih =>
    obtain ⟨pk, pf⟩ := p
    rw [findingLookup] at h
    by_cases hk : pk = k
    · simp only [List.map_cons]
      rw [if_pos hk, findingLookup, if_pos rfl]
    · rw [if_neg hk] at h
      simp only [List.map_cons]
      rw [if_neg hk, findingLookup, if_neg hk]
      exact ih h

theorem findingLookup_append_single {l : List (FindingKey × Finding)} {k : FindingKey}
    (f : Finding) (h : findingLookup l k = none) :
    findingLookup (l ++ [(k, f)]) k = some f := by
  induction l with
  | nil => simp [findingLookup]
  | cons p rest ih =>
    obtain ⟨pk, pf⟩ := p
    rw [findingLookup] at h
    split at h
    · cases h
    · rename_i hne
      simp only [List.cons_append]
      rw [findingLookup, if_neg hne]
      exact ih h

theorem findingLookup_storePut (l : List (FindingKey × Finding)) (k : FindingKey)
    (f : Finding) : findingLookup (storePut l k f) k = some f := by
  unfold storePut
  split
  · rename_i h
    exact findingLookup_map_put f h
  · rename_i h
    rw [Option.not_isSome_iff_eq_none] at h
    exact findingLookup_append_single f h

theorem storePut_storePut (l : List (FindingKey × Finding)) (k : FindingKey)
    (f : Finding) : storePut (storePut l k f) k f = storePut l k f := by
  have hs : (findingLookup (storePut l k f) k).isSome := by
    rw [findingLookup_storePut]
    rfl
  conv_lhs => rw [storePut]
  rw [if_pos hs]
  conv_lhs => rw [storePut]
  conv_rhs => rw [storePut]
  split
  · rw [List.map_map]
    apply List.map_congr_left
    intro kv _
    by_cases hk : kv.1 = k <;> simp [Function.comp, hk]
  · rename_i h
    rw [Option.not_isSome_iff_eq_none] at h
    have hnm := findingLookup_none_not_mem h
    rw [List.map_append]
    congr 1
    · calc l.map (fun kv => if kv.1 = k then (k, f) else kv)
          = l.map id := List.map_congr_left (fun kv hkv => by rw [if_neg (hnm kv hkv)]; rfl)
        _ = l := List.map_id l
    · simp

theorem listMem_append_self {α : Type} [DecidableEq α] (x : α) (l : List α) :
    listMem x (l ++ [x]) = true := by
  induction l with
  | nil => simp [listMem]
  | cons y rest ih =>
    by_cases h : y = x
    · simp [listMem, h]
    · simp only [List.cons_append, listMem, if_neg h]
      exact ih

theorem self_listMem_getOrCreate {α : Type} [DecidableEq α] (x : α) (l : List α) :
    listMem x (if listMem x l then l else l ++ [x]) = true := by
  by_cases h : listMem x l = true
  · rw [if_pos h]
    exact h
  · rw [if_neg h]
    exact listMem_append_self x l

end FindingsConverter

namespace FindingsConverter

theorem dependabot_state_stable (a : GHAlert) (t : String × String) (n1 n2 : Int)
    (f0 : Finding) (tc : Int) (hc : a.created_at = some tc)
    (hfix : a.state = "fixed" → a.fixed_at ≠ none) :
    applyStateToFinding
      (convertDependabotAlert a t n2 (applyStateToFinding (convertDependabotAlert a t n1 f0) a n1))
      a n2 =
    applyStateToFinding (convertDependabotAlert a t n1 f0) a n1 := by
  by_cases ho : a.state = "open"
  · simp [convertDependabotAlert, applyStateToFinding, ho, hc]
  · by_cases hx : a.state = "fixed"
    · obtain ⟨tf, htf⟩ : ∃ tf, a.fixed_at = some tf := by
        cases hfa : a.fixed_at with
        | none => exact absurd hfa (hfix hx)
        | some t0 => exact ⟨t0, rfl⟩
      simp [convertDependabotAlert, applyStateToFinding, ho, hx, hc, htf]
    · by_cases hd : a.state = "dismissed"
      · simp [convertDependabotAlert, applyStateToFinding, ho, hx, hd, hc]
      · simp [convertDependabotAlert, applyStateToFinding, ho, hx, hd, hc]

theorem codeql_state_stable (a : GHAlert) (t : String × String) (n1 n2 : Int)
    (f0 : Finding) (tc : Int) (hc : a.created_at = some tc)
    (hfix : a.state = "fixed" → a.fixed_at ≠ none) :
    applyStateToFinding
      (convertCodeqlAlert a t n2 (applyStateToFinding (convertCodeqlAlert a t n1 f0) a n1))
      a n2 =
    applyStateToFinding (convertCodeqlAlert a t n1 f0) a n1 := by
  by_cases ho : a.state = "open"
  · simp [convertCodeqlAlert, applyStateToFinding, ho, hc]
  · by_cases hx : a.state = "fixed"
    · obtain ⟨tf, htf⟩ : ∃ tf, a.fixed_at = some tf := by
        cases hfa : a.fixed_at with
        | none => exact absurd hfa (hfix hx)
        | some t0 => exact ⟨t0, rfl⟩
      simp [convertCodeqlAlert, applyStateToFinding, ho, hx, hc, htf]
    · by_cases hd : a.state = "dismissed"
      · simp [convertCodeqlAlert, applyStateToFinding, ho, hx, hd, hc]
      · simp [convertCodeqlAlert, applyStateToFinding, ho, hx, hd, hc]

theorem secret_state_stable (a : GHAlert) (t : String × String) (n1 n2 : Int)
    (f0 : Finding) (tc : Int) (hc : a.created_at = some tc)
    (hfix : a.state = "fixed" → a.fixed_at ≠ none) :
    applyStateToFinding
      (convertSecretScanningAlert a t n2
        (applyStateToFinding (convertSecretScanningAlert a t n1 f0) a n1))
      a n2 =
    applyStateToFinding (convertSecretScanningAlert a t n1 f0) a n1 := by
  by_cases ho : a.state = "open"
  · simp [convertSecretScanningAlert, applyStateToFinding, ho, hc]
  · by_cases hx : a.state = "fixed"
    · obtain ⟨tf, htf⟩ : ∃ tf, a.fixed_at = some tf := by
        cases hfa : a.fixed_at with
        | none => exact absurd hfa (hfix hx)
        | some t0 => exact ⟨t0, rfl⟩
      simp [convertSecretScanningAlert, applyStateToFinding, ho, hx, hc, htf]
    · by_cases hd : a.state = "dismissed"
      · simp [convertSecretScanningAlert, applyStateToFinding, ho, hx, hd, hc]
      · simp [convertSecretScanningAlert, applyStateToFinding, ho, hx, hd, hc]

/-- Converted fields followed by state projection are stable across a
second projection of the same unchanged alert, provided `created_at` is
present and `fixed_at` is present whenever the state is `fixed`. -/
theorem convert_state_stable (a : GHAlert) (t : String × String) (n1 n2 : Int)
    (f0 g1 : Finding) (tc : Int) (hc : a.created_at = some tc)
    (hfix : a.state = "fixed" → a.fixed_at ≠ none)
    (h : convertAlertToFindingFields a t n1 f0 = .ok g1) :
    ∃ g2, convertAlertToFindingFields a t n2 (applyStateToFinding g1 a n1) = .ok g2 ∧
      applyStateToFinding g2 a n2 = applyStateToFinding g1 a n1 := by
  unfold convertAlertToFindingFields at h ⊢
  by_cases h1ty : a.alert_type = "dependabot"
  · rw [if_pos h1ty] at h ⊢
    have hg := Except.ok.inj h
    subst hg
    exact ⟨_, rfl, dependabot_state_stable a t n1 n2 f0 tc hc hfix⟩
  · rw [if_neg h1ty] at h ⊢
    by_cases h2ty : a.alert_type = "codeql"
    · rw [if_pos h2ty] at h ⊢
      have hg := Except.ok.inj h
      subst hg
      exact ⟨_, rfl, codeql_state_stable a t n1 n2 f0 tc hc hfix⟩
    · rw [if_neg h2ty] at h ⊢
      by_cases h3ty : a.alert_type = "secret_scanning"
      · rw [if_pos h3ty] at h ⊢
        have hg := Except.ok.inj h
        subst hg
        exact ⟨_, rfl, secret_state_stable a t n1 n2 f0 tc hc hfix⟩
      · rw [if_neg h3ty] at h
        cases h

end FindingsConverter

/-- C1 (amended): projecting the same unchanged alert a second time finds
the stored finding (`created = False`) and leaves every field and the
store byte-identical, PROVIDED the alert carries a created-at timestamp
and — when its state is `fixed` — a fixed-at timestamp; without a fixed-at
the code writes `mitigated = timezone.now()` of the current call, which
differs between calls (see the counterexample). -/
theorem create_or_update_finding_idempotent
    (w : FindingsConverter.World) (a : FindingsConverter.GHAlert) (now1 now2 : Int)
    (f1 : FindingsConverter.Finding) (c : Bool) (w1 : FindingsConverter.World)
    (h1 : FindingsConverter.createOrUpdateFinding w a now1 = .ok (f1, c, w1))
    (hc : a.created_at ≠ none)
    (hfix : a.state = "fixed" → a.fixed_at ≠ none) :
    FindingsConverter.createOrUpdateFinding w1 a now2 = .ok (f1, false, w1) := by
  obtain ⟨tc, htc⟩ : ∃ tc, a.created_at = some tc := by
    cases hca : a.created_at with
    | none => exact absurd hca hc
    | some t0 => exact ⟨t0, rfl⟩
  unfold FindingsConverter.createOrUpdateFinding at h1 ⊢
  cases hp : a.repo_product with
  | none =>
    rw [hp] at h1
    dsimp only at h1
    cases h1
  | some product =>
    rw [hp] at h1
    dsimp only at h1 ⊢
    cases htt : FindingsConverter.testTypeMap a.alert_type with
    | none =>
      rw [htt] at h1
      dsimp only at h1
      cases h1
    | some ttn =>
      rw [htt] at h1
      dsimp only at h1 ⊢
      by_cases htb : listMem ttn w.testTypes = true
      case neg =>
        rw [if_neg htb] at h1
        cases h1
      case pos =>
        rw [if_pos htb] at h1
        cases hlk : FindingsConverter.findingLookup w.findings
            (product, "GitHub Security Alerts - " ++ a.repo_name, ttn,
             FindingsConverter.buildUniqueId a) with
        | none =>
          rw [hlk] at h1
          dsimp only at h1
          cases hcv : FindingsConverter.convertAlertToFindingFields a
              ("GitHub Security Alerts - " ++ a.repo_name, ttn) now1 {} with
          | error e =>
            rw [hcv] at h1
            dsimp only at h1
            cases h1
          | ok g1 =>
            rw [hcv] at h1
            dsimp only at h1
            rw [Except.ok.injEq, Prod.mk.injEq, Prod.mk.injEq] at h1
            obtain ⟨hf1, hcb, hw1⟩ := h1
            subst hf1 hcb hw1
            dsimp only
            rw [if_pos htb]
            rw [if_pos (FindingsConverter.self_listMem_getOrCreate
              (product, "GitHub Security Alerts - " ++ a.repo_name) w.engagements)]
            rw [if_pos (FindingsConverter.self_listMem_getOrCreate
              (product, "GitHub Security Alerts - " ++ a.repo_name, ttn) w.tests)]
            rw [FindingsConverter.findingLookup_storePut]
            dsimp only
            obtain ⟨g2, hg2, hstable⟩ :=
              FindingsConverter.convert_state_stable a
                ("GitHub Security Alerts - " ++ a.repo_name, ttn) now1 now2 {} g1 tc htc hfix hcv
            rw [hg2]
            dsimp only
            rw [hstable, FindingsConverter.storePut_storePut]
        | some fstored =>
          rw [hlk] at h1
          dsimp only at h1
          cases hcv : FindingsConverter.convertAlertToFindingFields a
              ("GitHub Security Alerts - " ++ a.repo_name, ttn) now1 fstored with
          | error e =>
            rw [hcv] at h1
            dsimp only at h1
            cases h1
          | ok g1 =>
            rw [hcv] at h1
            dsimp only at h1
            rw [Except.ok.injEq, Prod.mk.injEq, Prod.mk.injEq] at h1
            obtain ⟨hf1, hcb, hw1⟩ := h1
            subst hf1 hcb hw1
            dsimp only
            rw [if_pos htb]
            rw [if_pos (FindingsConverter.self_listMem_getOrCreate
              (product, "GitHub Security Alerts - " ++ a.repo_name) w.engagements)]
            rw [if_pos (FindingsConverter.self_listMem_getOrCreate
              (product, "GitHub Security Alerts - " ++ a.repo_name, ttn) w.tests)]
            rw [FindingsConverter.findingLookup_storePut]
            dsimp only
            obtain ⟨g2, hg2, hstable⟩ :=
              FindingsConverter.convert_state_stable a
                ("GitHub Security Alerts - " ++ a.repo_name, ttn) now1 now2 fstored g1 tc htc hfix hcv
            rw [hg2]
            dsimp only
            rw [hstable, FindingsConverter.storePut_storePut]

/-- C1 counterexample: projecting the unchanged `fixed` alert with absent
`fixed_at` a second time does return `created = False`, but rewrites
`mitigated` to the second call's current time (0 became 86400) — the
finding is not byte-identical, so the claim as stated fails. -/
theorem create_or_update_finding_not_byte_identical :
    FindingsConverter.exFirstOutcome = some (true, some 0) ∧
    FindingsConverter.exSecondOutcome = some (false, some 86400) ∧
    FindingsConverter.exFirstOutcome.map Prod.snd ≠
      FindingsConverter.exSecondOutcome.map Prod.snd :=
  ⟨rfl, rfl, by decide⟩

/-- Witness for `create_or_update_finding_idempotent`: the same alert with
`fixed_at` present projects twice to byte-identical findings and stores. -/
theorem create_or_update_finding_idempotent_witness :
    (FindingsConverter.createOrUpdateFinding FindingsConverter.exWorld
       FindingsConverter.exWitAlert 0 =
       .ok (FindingsConverter.exWitFinding, true, FindingsConverter.exWitWorld1) ∧
     FindingsConverter.exWitAlert.created_at ≠ none ∧
     (FindingsConverter.exWitAlert.state = "fixed" →
       FindingsConverter.exWitAlert.fixed_at ≠ none)) ∧
    FindingsConverter.createOrUpdateFinding FindingsConverter.exWitWorld1
      FindingsConverter.exWitAlert 86400 =
      .ok (FindingsConverter.exWitFinding, false, FindingsConverter.exWitWorld1) := by
  refine ⟨⟨rfl, by decide, fun _ => by decide⟩, ?_⟩
  exact create_or_update_finding_idempotent FindingsConverter.exWorld
    FindingsConverter.exWitAlert 0 86400 FindingsConverter.exWitFinding true
    FindingsConverter.exWitWorld1 rfl (by decide) (fun _ => by decide)

/-- Witness for `graphql_path_cannot_assign_tier1` at a concrete GraphQL
repository datum. -/
theorem graphql_path_cannot_assign_tier1_witness :
    (TierClassifier.classify
       (Collector.detectSignalsFromGraphql 0
         ⟨["Dockerfile"], 0, 0, [], 0, [], 0, none, 0, none, ""⟩) none).tier ≠
      TierClassifier.Tier.one :=
  graphql_path_cannot_assign_tier1.2.1 0
    ⟨["Dockerfile"], 0, 0, [], 0, [], 0, none, 0, none, ""⟩ none
